import Mathlib

/-!
Verification development for the plugin state-table layer
(userspace/libsinsp/plugin_table_api.cpp): the bidirectional adapters
between host-implemented state tables and the plugin boundary contract.

The shallow embedding below translates the adapter code directly from the
source.  Code of the repository that is not part of the source tree here
(the `libsinsp::state` table/struct implementations and the table
registry) is modelled from the specification; every such definition is
marked `Modelled from the spec:` in its doc comment.
-/

namespace PluginTableApi

/-- `ss_plugin_state_type`: the closed enumeration of key/field types. -/
inductive StateType
  | int8 | int16 | int32 | int64
  | uint8 | uint16 | uint32 | uint64
  | string | boolean
deriving DecidableEq, Repr

/-- `ss_plugin_state_data`: the tagged union of key/field payloads.
Machine widths never matter for the properties below (no arithmetic is
performed on payloads), so integer members carry unbounded values. -/
inductive Data
  | s8 (v : Int) | s16 (v : Int) | s32 (v : Int) | s64 (v : Int)
  | u8 (v : Nat) | u16 (v : Nat) | u32 (v : Nat) | u64 (v : Nat)
  | str (v : String) | b (v : Bool)
deriving DecidableEq, Repr

/-- Which union member a `Data` value currently holds. -/
def Data.tag : Data → StateType
  | .s8 _ => .int8 | .s16 _ => .int16 | .s32 _ => .int32 | .s64 _ => .int64
  | .u8 _ => .uint8 | .u16 _ => .uint16 | .u32 _ => .uint32 | .u64 _ => .uint64
  | .str _ => .string | .b _ => .boolean

/-- The zero value of a union member. -/
def defaultData : StateType → Data
  | .int8 => .s8 0 | .int16 => .s16 0 | .int32 => .s32 0 | .int64 => .s64 0
  | .uint8 => .u8 0 | .uint16 => .u16 0 | .uint32 => .u32 0 | .uint64 => .u64 0
  | .string => .str "" | .boolean => .b false

/-- Reading union member `st` out of `d`.  When the stored member matches
the requested one this is the identity; reading a different member is
type punning, left undefined by the source and modelled as the zero
value. -/
def unionGet (st : StateType) (d : Data) : Data :=
  if d.tag = st then d else defaultData st

/-- `(uint64_t)-1`, the sentinel of `get_table_size`. -/
def u64max : Nat := 2 ^ 64 - 1

/-- A field descriptor as used by the host-side structs: stable index,
declared type, read-only flag (the name is the association-list key). -/
structure FieldInfo where
  index : Nat
  type : StateType
  read_only : Bool
deriving DecidableEq, Repr

/-- `ss_plugin_table_fieldinfo`: a boundary field descriptor. -/
structure ForeignFieldInfo where
  name : String
  field_type : StateType
  read_only : Bool
deriving DecidableEq, Repr

/-- `sinsp_table_wrapper::field_accessor_wrapper`: a host-side accessor,
recording whether the field is dynamic, the data type recorded at
creation, and the wrapped field index. -/
structure field_accessor_wrapper where
  dynamic : Bool
  data_type : StateType
  accessor : Nat
deriving DecidableEq, Repr

/-- An opaque boundary accessor handle (`ss_plugin_table_field_t*`): a
pointer to a host `field_accessor_wrapper` or a foreign handle owned by
the plugin side.  The source casts blindly; theorems only ever use the
matching kind. -/
inductive FieldHandle
  | host (a : field_accessor_wrapper)
  | foreign (h : Nat)
deriving DecidableEq, Repr

/-- Project a boundary accessor onto a host accessor; projecting a
foreign handle is undefined in the source (a blind cast) and modelled by
a fixed default. -/
def FieldHandle.asHost : FieldHandle → field_accessor_wrapper
  | .host a => a
  | .foreign _ => ⟨false, .uint64, 0⟩

/-- Project a boundary accessor onto a foreign handle (blind cast,
default on mismatch). -/
def FieldHandle.asForeign : FieldHandle → Nat
  | .foreign h => h
  | .host _ => 0

/-- Association-list lookup (the keyed maps of the source: name-keyed
schema maps, key-keyed entry collections, handle-keyed heaps). -/
def alookup {α β : Type} [DecidableEq α] (k : α) : List (α × β) → Option β
  | [] => none
  | (k2, v) :: rest => if k2 = k then some v else alookup k rest

/-- Association-list insert-or-replace (`map[key] = value`). -/
def aupsert {α β : Type} [DecidableEq α] (k : α) (v : β) :
    List (α × β) → List (α × β)
  | [] => [(k, v)]
  | (k2, v2) :: rest => if k2 = k then (k, v) :: rest else (k2, v2) :: aupsert k v rest

/-- Association-list removal (`map.erase(key)`). -/
def aremove {α β : Type} [DecidableEq α] (k : α) :
    List (α × β) → List (α × β)
  | [] => []
  | (k2, v) :: rest => if k2 = k then rest else (k2, v) :: aremove k rest

/-- `ss_plugin_table_fields_vtable`: the foreign field-discovery calls,
as state transformers over the foreign backing store `σ`. -/
structure FieldsVTable (σ : Type) where
  list_table_fields : σ → Option (List ForeignFieldInfo) × σ
  get_table_field : String → StateType → σ → Option Nat × σ
  add_table_field : String → StateType → σ → Option Nat × σ

/-- `ss_plugin_table_reader_vtable`. -/
structure ReaderVTable (σ : Type) where
  get_table_name : σ → String × σ
  get_table_size : σ → Nat × σ
  get_table_entry : Data → σ → Option Nat × σ
  read_entry_field : Nat → Nat → σ → Option Data × σ

/-- `ss_plugin_table_writer_vtable`.  Boolean results model
`ss_plugin_rc` with `true = SS_PLUGIN_SUCCESS`. -/
structure WriterVTable (σ : Type) where
  clear_table : σ → Bool × σ
  erase_table_entry : Data → σ → Bool × σ
  create_table_entry : σ → Option Nat × σ
  destroy_table_entry : Nat → σ → σ
  add_table_entry : Data → Nat → σ → Option Nat × σ
  write_entry_field : Nat → Nat → Data → σ → Bool × σ

/-- `ss_plugin_table_input`: the foreign table handle, its declared name
and key type, and the three vtables.  `owner_last_error` models
`m_table_plugin_owner->get_last_error()`: reading the owning plugin's
last-error slot out of the foreign-side state. -/
structure TableInput (σ : Type) where
  name : String
  key_type : StateType
  fields : FieldsVTable σ
  reader : ReaderVTable σ
  writer : WriterVTable σ
  owner_last_error : σ → String

/-- The virtual interface of a natively implemented
`libsinsp::state::table` as called by the adapter, over native storage
`τ`.  Operations that can raise a native exception return
`Except String`; the error value is the exception message.  The concrete
instance used by several theorems is modelled from the spec further
below; for the error-translation claims the operations are arbitrary. -/
structure NativeTable (τ : Type) where
  name : String
  key_info : StateType
  static_fields : List (String × FieldInfo)
  dyn_fields : τ → List (String × FieldInfo)
  entries_count : τ → Except String Nat
  clear_entries : τ → Except String τ
  new_entry : τ → Except String (Nat × τ)
  get_entry : Data → τ → Except String (Option Nat)
  add_entry : Data → Nat → τ → Except String (Nat × τ)
  erase_entry : Data → τ → Except String (Bool × τ)
  add_dyn_field : String → StateType → τ → Except String τ
  get_static_field : Nat → Nat → StateType → τ → Except String Data
  get_dynamic_field : Nat → Nat → StateType → τ → Except String Data
  set_static_field : Nat → Nat → StateType → Data → τ → Except String τ
  set_dynamic_field : Nat → Nat → StateType → Data → τ → Except String τ

/-- `sinsp_table_wrapper`: the Host-Owned Table Adapter / Boundary
Dispatcher state.  `owner_err` is `m_owner_plugin->m_last_owner_err`;
`plugin_input` is `m_table_plugin_input` (set by the constructor when the
wrapped table is itself plugin-owned); `native` and `foreign` carry the
backing-store states of the two possible owners; `natively_destroyed`
records entry handles freed through the native destruction path (the
`unique_ptr` deletion), an effect on host memory rather than on either
backing store. -/
structure sinsp_table_wrapper (σ τ : Type) where
  owner_err : String
  key_type : StateType
  field_list : List ForeignFieldInfo
  field_accessors : List (String × field_accessor_wrapper)
  plugin_input : Option (TableInput σ)
  native : τ
  foreign : σ
  natively_destroyed : List Nat

namespace sinsp_table_wrapper

variable {σ τ : Type}

/-- `sinsp_table_wrapper::list_fields`. -/
def list_fields (nt : NativeTable τ) (w : sinsp_table_wrapper σ τ) :
    Option (List ForeignFieldInfo) × sinsp_table_wrapper σ τ :=
  match w.plugin_input with
  | some i =>
    match i.fields.list_table_fields w.foreign with
    | (none, s2) => (none, { w with foreign := s2, owner_err := i.owner_last_error s2 })
    | (some l, s2) => (some l, { w with foreign := s2 })
  | none =>
    let l := (nt.static_fields.map fun p => ForeignFieldInfo.mk p.1 p.2.type p.2.read_only)
          ++ ((nt.dyn_fields w.native).map fun p => ForeignFieldInfo.mk p.1 p.2.type false)
    (some l, { w with field_list := l })

/-- The dynamic-field tail of `sinsp_table_wrapper::get_field`: the third
catch block of the source, reached when no static accessor was returned. -/
def get_field_dyn (nt : NativeTable τ) (w : sinsp_table_wrapper σ τ)
    (name : String) (data_type : StateType) (dyn_it : Option FieldInfo) :
    Option FieldHandle × sinsp_table_wrapper σ τ :=
  match dyn_it with
  | some di =>
    if data_type = di.type then
      let aw : field_accessor_wrapper := ⟨true, data_type, di.index⟩
      (some (.host aw), { w with field_accessors := aupsert name aw w.field_accessors })
    else
      (none, { w with owner_err := "incompatible data types for field: " ++ name })
  | none =>
    (none, { w with owner_err :=
      "undefined field \x27" ++ name ++ "\x27 in table \x27" ++ nt.name ++ "\x27" })

/-- `sinsp_table_wrapper::get_field`.  The three `__CATCH_ERR_MSG`
blocks of the source run in sequence: an exception caught in an earlier
block stores its message and execution falls through to the next block. -/
def get_field (nt : NativeTable τ) (w : sinsp_table_wrapper σ τ)
    (name : String) (data_type : StateType) :
    Option FieldHandle × sinsp_table_wrapper σ τ :=
  match w.plugin_input with
  | some i =>
    match i.fields.get_table_field name data_type w.foreign with
    | (none, s2) => (none, { w with foreign := s2, owner_err := i.owner_last_error s2 })
    | (some h, s2) => (some (.foreign h), { w with foreign := s2 })
  | none =>
    match alookup name w.field_accessors with
    | some acc => (some (.host acc), w)
    | none =>
      let fixed_it := alookup name nt.static_fields
      let dyn_it := alookup name (nt.dyn_fields w.native)
      -- first catch block: both-static-and-dynamic raises; the message is
      -- stored and control continues with the next block
      let w1 := if fixed_it.isSome ∧ dyn_it.isSome then
          { w with owner_err := "field is defined as both static and dynamic: " ++ name }
        else w
      match fixed_it with
      | some fi =>
        if data_type = fi.type then
          let aw : field_accessor_wrapper := ⟨false, data_type, fi.index⟩
          (some (.host aw), { w1 with field_accessors := aupsert name aw w1.field_accessors })
        else
          -- second catch block caught the incompatible-type exception;
          -- the third block still runs
          get_field_dyn nt
            { w1 with owner_err := "incompatible data types for field: " ++ name }
            name data_type dyn_it
      | none => get_field_dyn nt w1 name data_type dyn_it

/-- `sinsp_table_wrapper::add_field`. -/
def add_field (nt : NativeTable τ) (w : sinsp_table_wrapper σ τ)
    (name : String) (data_type : StateType) :
    Option FieldHandle × sinsp_table_wrapper σ τ :=
  match w.plugin_input with
  | some i =>
    match i.fields.add_table_field name data_type w.foreign with
    | (none, s2) => (none, { w with foreign := s2, owner_err := i.owner_last_error s2 })
    | (some h, s2) => (some (.foreign h), { w with foreign := s2 })
  | none =>
    if (alookup name nt.static_fields).isSome then
      (none, { w with owner_err :=
        "can\x27t add dynamic field already defined as static: " ++ name })
    else
      match nt.add_dyn_field name data_type w.native with
      | .error e => (none, { w with owner_err := e })
      | .ok t2 => get_field nt { w with native := t2 } name data_type

/-- `sinsp_table_wrapper::get_name`. -/
def get_name (nt : NativeTable τ) (w : sinsp_table_wrapper σ τ) :
    Option String × sinsp_table_wrapper σ τ :=
  match w.plugin_input with
  | some i => (some i.name, w)
  | none => (some nt.name, w)

/-- `sinsp_table_wrapper::get_size`. -/
def get_size (nt : NativeTable τ) (w : sinsp_table_wrapper σ τ) :
    Nat × sinsp_table_wrapper σ τ :=
  match w.plugin_input with
  | some i =>
    match i.reader.get_table_size w.foreign with
    | (ret, s2) =>
      if ret = u64max then
        (ret, { w with foreign := s2, owner_err := i.owner_last_error s2 })
      else (ret, { w with foreign := s2 })
  | none =>
    match nt.entries_count w.native with
    | .ok n => (n, w)
    | .error e => (u64max, { w with owner_err := e })

/-- `sinsp_table_wrapper::get_entry`. -/
def get_entry (nt : NativeTable τ) (w : sinsp_table_wrapper σ τ) (key : Data) :
    Option Nat × sinsp_table_wrapper σ τ :=
  match w.plugin_input with
  | some i =>
    match i.reader.get_table_entry key w.foreign with
    | (none, s2) => (none, { w with foreign := s2, owner_err := i.owner_last_error s2 })
    | (some h, s2) => (some h, { w with foreign := s2 })
  | none =>
    match nt.get_entry (unionGet w.key_type key) w.native with
    | .ok r => (r, w)
    | .error e => (none, { w with owner_err := e })

/-- `sinsp_table_wrapper::read_entry_field`.  `some d` models
`SS_PLUGIN_SUCCESS` together with the value stored through `out`. -/
def read_entry_field (nt : NativeTable τ) (w : sinsp_table_wrapper σ τ)
    (e : Nat) (f : FieldHandle) : Option Data × sinsp_table_wrapper σ τ :=
  match w.plugin_input with
  | some i =>
    match i.reader.read_entry_field e f.asForeign w.foreign with
    | (none, s2) => (none, { w with foreign := s2, owner_err := i.owner_last_error s2 })
    | (some d, s2) => (some d, { w with foreign := s2 })
  | none =>
    let a := f.asHost
    let res := if a.dynamic then nt.get_dynamic_field e a.accessor a.data_type w.native
               else nt.get_static_field e a.accessor a.data_type w.native
    match res with
    | .ok d => (some (unionGet a.data_type d), w)
    | .error ex => (none, { w with owner_err := ex })

/-- `sinsp_table_wrapper::clear`. -/
def clear (nt : NativeTable τ) (w : sinsp_table_wrapper σ τ) :
    Bool × sinsp_table_wrapper σ τ :=
  match w.plugin_input with
  | some i =>
    match i.writer.clear_table w.foreign with
    | (false, s2) => (false, { w with foreign := s2, owner_err := i.owner_last_error s2 })
    | (true, s2) => (true, { w with foreign := s2 })
  | none =>
    match nt.clear_entries w.native with
    | .ok t2 => (true, { w with native := t2 })
    | .error e => (false, { w with owner_err := e })

/-- `sinsp_table_wrapper::erase_entry`. -/
def erase_entry (nt : NativeTable τ) (w : sinsp_table_wrapper σ τ) (key : Data) :
    Bool × sinsp_table_wrapper σ τ :=
  match w.plugin_input with
  | some i =>
    match i.writer.erase_table_entry key w.foreign with
    | (false, s2) => (false, { w with foreign := s2, owner_err := i.owner_last_error s2 })
    | (true, s2) => (true, { w with foreign := s2 })
  | none =>
    match nt.erase_entry (unionGet w.key_type key) w.native with
    | .ok (true, t2) => (true, { w with native := t2 })
    | .ok (false, t2) =>
      (false, { w with native := t2, owner_err := "table entry not found" })
    | .error e => (false, { w with owner_err := e })

/-- `sinsp_table_wrapper::create_table_entry`. -/
def create_table_entry (nt : NativeTable τ) (w : sinsp_table_wrapper σ τ) :
    Option Nat × sinsp_table_wrapper σ τ :=
  match w.plugin_input with
  | some i =>
    match i.writer.create_table_entry w.foreign with
    | (none, s2) => (none, { w with foreign := s2, owner_err := i.owner_last_error s2 })
    | (some h, s2) => (some h, { w with foreign := s2 })
  | none =>
    match nt.new_entry w.native with
    | .ok (h, t2) => (some h, { w with native := t2 })
    | .error e => (none, { w with owner_err := e })

/-- `sinsp_table_wrapper::destroy_table_entry`.  When the wrapped table
is plugin-backed the forwarding branch does not return: the native
destruction branch below it also runs and frees the same handle as a
native `table_entry`. -/
def destroy_table_entry (_nt : NativeTable τ) (w : sinsp_table_wrapper σ τ)
    (e : Nat) : sinsp_table_wrapper σ τ :=
  match w.plugin_input with
  | some i =>
    let s2 := i.writer.destroy_table_entry e w.foreign
    { w with foreign := s2, natively_destroyed := e :: w.natively_destroyed }
  | none =>
    { w with natively_destroyed := e :: w.natively_destroyed }

/-- `sinsp_table_wrapper::add_entry`. -/
def add_entry (nt : NativeTable τ) (w : sinsp_table_wrapper σ τ)
    (key : Data) (e : Nat) : Option Nat × sinsp_table_wrapper σ τ :=
  match w.plugin_input with
  | some i =>
    match i.writer.add_table_entry key e w.foreign with
    | (none, s2) => (none, { w with foreign := s2, owner_err := i.owner_last_error s2 })
    | (some h, s2) => (some h, { w with foreign := s2 })
  | none =>
    match nt.add_entry (unionGet w.key_type key) e w.native with
    | .ok (h, t2) => (some h, { w with native := t2 })
    | .error ex => (none, { w with owner_err := ex })

/-- `sinsp_table_wrapper::write_entry_field`. -/
def write_entry_field (nt : NativeTable τ) (w : sinsp_table_wrapper σ τ)
    (e : Nat) (f : FieldHandle) (din : Data) : Bool × sinsp_table_wrapper σ τ :=
  match w.plugin_input with
  | some i =>
    match i.writer.write_entry_field e f.asForeign din w.foreign with
    | (false, s2) => (false, { w with foreign := s2, owner_err := i.owner_last_error s2 })
    | (true, s2) => (true, { w with foreign := s2 })
  | none =>
    let a := f.asHost
    let v := unionGet a.data_type din
    let res := if a.dynamic then nt.set_dynamic_field e a.accessor a.data_type v w.native
               else nt.set_static_field e a.accessor a.data_type v w.native
    match res with
    | .ok t2 => (true, { w with native := t2 })
    | .error ex => (false, { w with owner_err := ex })

end sinsp_table_wrapper

/-- Modelled from the spec: the base dynamic-field registry
(`dynamic_struct::field_infos::add_field`), an ordered append-only set of
descriptors.  Adding a name that already exists with the same type
returns the existing descriptor unchanged; a conflicting type is a
schema-definition error; a new name is appended. -/
def base_add_field (name : String) (f : FieldInfo)
    (m : List (String × FieldInfo)) :
    Except String (FieldInfo × List (String × FieldInfo)) :=
  match alookup name m with
  | some g =>
    if g.type = f.type then .ok (g, m)
    else .error ("field already defined with incompatible type: " ++ name)
  | none => .ok (f, m ++ [(name, f)])

/-- The descriptor-import loop of `plugin_field_infos::fields`: each
foreign descriptor at position `i` is rebuilt as a field info with index
`i` and pushed through the base registry. -/
def import_fields : List ForeignFieldInfo → Nat → List (String × FieldInfo) →
    Except String (List (String × FieldInfo))
  | [], _, m => .ok m
  | d :: rest, i, m =>
    match base_add_field d.name ⟨i, d.field_type, d.read_only⟩ m with
    | .error e => .error e
    | .ok (_, m2) => import_fields rest (i + 1) m2

/-- Read slot `i` of the accessor vector (`m_accessors[i]`, `nullptr`
when out of range). -/
def lgetD : List (Option Nat) → Nat → Option Nat
  | [], _ => none
  | x :: _, 0 => x
  | _ :: rest, n + 1 => lgetD rest n

/-- Write slot `i` of the accessor vector. -/
def lset : List (Option Nat) → Nat → Option Nat → List (Option Nat)
  | [], _, _ => []
  | _ :: rest, 0, v => v :: rest
  | x :: rest, n + 1, v => x :: lset rest n v

/-- `while (m_accessors.size() <= index) m_accessors.push_back(nullptr)`. -/
def ensure_size (l : List (Option Nat)) (n : Nat) : List (Option Nat) :=
  if l.length ≤ n then l ++ List.replicate (n + 1 - l.length) none else l

/-- The accessor-acquisition loop of `plugin_field_infos::fields`: for
every cached field, grow the accessor vector up to its index and acquire
a raw foreign accessor only when none is cached at that index. -/
def acquire_accessors {σ : Type} (i : TableInput σ) :
    List (String × FieldInfo) → List (Option Nat) → σ →
    Except String (List (Option Nat) × σ)
  | [], accs, s => .ok (accs, s)
  | f :: rest, accs, s =>
    match lgetD (ensure_size accs f.2.index) f.2.index with
    | some _ => acquire_accessors i rest (ensure_size accs f.2.index) s
    | none =>
      match i.fields.get_table_field f.1 f.2.type s with
      | (none, s2) => .error ("plugin table get field error: " ++ i.owner_last_error s2)
      | (some h, s2) =>
        acquire_accessors i rest (lset (ensure_size accs f.2.index) f.2.index (some h)) s2

/-- `plugin_table_wrapper::plugin_field_infos`: the locally cached
foreign field descriptors (the base-class map) and the per-index raw
accessor handles (`m_accessors`). -/
structure plugin_field_infos where
  cached : List (String × FieldInfo)
  m_accessors : List (Option Nat)
deriving DecidableEq, Repr

/-- `plugin_field_infos::fields`: one foreign `list_table_fields` call;
the local cache is re-imported from the returned descriptors only when
the reported count differs from the cached count; missing raw accessors
are then acquired. -/
def plugin_field_infos.fields {σ : Type} (i : TableInput σ)
    (p : plugin_field_infos) (s : σ) :
    Except String (plugin_field_infos × σ) :=
  match i.fields.list_table_fields s with
  | (none, s1) => .error ("plugin table list fields error: " ++ i.owner_last_error s1)
  | (some l, s1) =>
    match (if l.length ≠ p.cached.length then import_fields l 0 p.cached
           else .ok p.cached) with
    | .error e => .error e
    | .ok cached2 =>
      match acquire_accessors i cached2 p.m_accessors s1 with
      | .error e => .error e
      | .ok (accs2, s2) => .ok (⟨cached2, accs2⟩, s2)

/-- `plugin_field_infos::add_field`: forward to the foreign
`add_table_field`, trigger a full refresh, then register through the
base class. -/
def plugin_field_infos.add_field {σ : Type} (i : TableInput σ)
    (p : plugin_field_infos) (s : σ) (name : String) (f : FieldInfo) :
    Except String (FieldInfo × plugin_field_infos × σ) :=
  match i.fields.add_table_field name f.type s with
  | (none, s1) => .error ("plugin table list fields error: " ++ i.owner_last_error s1)
  | (some _, s1) =>
    match plugin_field_infos.fields i p s1 with
    | .error e => .error e
    | .ok (p2, s2) =>
      match base_add_field name f p2.cached with
      | .error e => .error e
      | .ok (fi, m2) => .ok (fi, ⟨m2, p2.m_accessors⟩, s2)

/-- `plugin_table_wrapper::invalid_access_msg`. -/
def invalid_access_msg (table_name op : String) : String :=
  "operation \x27" ++ op ++ "\x27 not supported by plugin-owned table \x27" ++
    table_name ++ "\x27"

/-- `plugin_table_wrapper::plugin_table_entry`: the foreign entry handle
and the ownership flag (`true` until inserted, then `false`). -/
structure plugin_table_entry where
  m_entry : Nat
  m_destroy_entry : Bool
deriving DecidableEq, Repr

/-- `plugin_table_wrapper`: the Plugin-Owned Table Adapter.  Host-facing
operations are direct pass-throughs to the foreign vtables; failures
surface as native exceptions (`Except.error`) carrying the owning
plugin's last error. -/
structure plugin_table_wrapper (σ : Type) where
  m_input : TableInput σ
  m_dyn_fields : plugin_field_infos

namespace plugin_table_wrapper

variable {σ : Type}

/-- `plugin_table_wrapper::entries_count`. -/
def entries_count (pw : plugin_table_wrapper σ) (s : σ) :
    Except String (Nat × σ) :=
  match pw.m_input.reader.get_table_size s with
  | (res, s1) =>
    if res = u64max then .error (pw.m_input.owner_last_error s1)
    else .ok (res, s1)

/-- `plugin_table_wrapper::clear_entries`. -/
def clear_entries (pw : plugin_table_wrapper σ) (s : σ) : Except String σ :=
  match pw.m_input.writer.clear_table s with
  | (false, s1) => .error (pw.m_input.owner_last_error s1)
  | (true, s1) => .ok s1

/-- `plugin_table_wrapper::foreach_entry`: whole-table iteration is
refused with an explicit unsupported-operation exception before touching
any state. -/
def foreach_entry (pw : plugin_table_wrapper σ)
    (_pred : Nat → Bool) (_s : σ) : Except String (Bool × σ) :=
  .error (invalid_access_msg pw.m_input.name "foreach")

/-- `plugin_table_wrapper::new_entry`: a Detached entry owning its
foreign handle. -/
def new_entry (pw : plugin_table_wrapper σ) (s : σ) :
    Except String (plugin_table_entry × σ) :=
  match pw.m_input.writer.create_table_entry s with
  | (none, s1) => .error (pw.m_input.owner_last_error s1)
  | (some h, s1) => .ok (⟨h, true⟩, s1)

/-- `plugin_table_wrapper::get_entry`: not-found is a `none` result, not
an exception. -/
def get_entry (pw : plugin_table_wrapper σ) (key : Data) (s : σ) :
    Except String (Option plugin_table_entry × σ) :=
  match pw.m_input.reader.get_table_entry key s with
  | (none, s1) => .ok (none, s1)
  | (some h, s1) => .ok (some ⟨h, false⟩, s1)

/-- `plugin_table_wrapper::add_entry`: ownership transfers to the table;
the returned entry no longer owns its handle. -/
def add_entry (pw : plugin_table_wrapper σ) (key : Data)
    (e : plugin_table_entry) (s : σ) :
    Except String (plugin_table_entry × σ) :=
  match pw.m_input.writer.add_table_entry key e.m_entry s with
  | (none, s1) => .error (pw.m_input.owner_last_error s1)
  | (some h, s1) => .ok (⟨h, false⟩, s1)

/-- `plugin_table_wrapper::erase_entry`: forwarded; the foreign status is
returned as a boolean, never an exception. -/
def erase_entry (pw : plugin_table_wrapper σ) (key : Data) (s : σ) :
    Bool × σ :=
  pw.m_input.writer.erase_table_entry key s

end plugin_table_wrapper

/-- A table held by the registry: exactly one owner implementation,
native or plugin. -/
inductive RegTable (σ τ : Type)
  | native (nt : NativeTable τ)
  | plugin (i : TableInput σ)

/-- The key type a registered table declares. -/
def RegTable.keyType {σ τ : Type} : RegTable σ τ → StateType
  | .native nt => nt.key_info
  | .plugin i => i.key_type

/-- Modelled from the spec: the engine-wide Table Registry lookup
(`table_registry::get_table<KeyType>(name)`, not part of the source
tree).  An unknown name yields no table; a key-type mismatch is a failure
with a message. -/
def registry_get_table {σ τ : Type} (key_type : StateType) (name : String)
    (reg : List (String × RegTable σ τ)) :
    Except String (Option (RegTable σ τ)) :=
  match alookup name reg with
  | none => .ok none
  | some t =>
    if t.keyType = key_type then .ok (some t)
    else .error ("table \x27" ++ name ++ "\x27 requested with incompatible key type")

/-- The `sinsp_table_wrapper` constructor together with the
`ss_plugin_table_input` population of `table_api_get_table`: when the
registry table is itself plugin-owned (`dynamic_cast` succeeds), the
original foreign input is installed as `m_table_plugin_input`. -/
def mkSinspTableWrapper {σ τ : Type} (err0 : String) (t : RegTable σ τ)
    (s : σ) (st : τ) : sinsp_table_wrapper σ τ where
  owner_err := err0
  key_type := t.keyType
  field_list := []
  field_accessors := []
  plugin_input := match t with | .plugin i => some i | .native _ => none
  native := st
  foreign := s
  natively_destroyed := []

/-- The per-plugin state seen by the registry entry points: the
last-error slot, the engine table registry, and the plugin's cache of
already-accessed table handles (`m_accessed_tables`). -/
structure PluginState (σ τ : Type) where
  last_owner_err : String
  registry : List (String × RegTable σ τ)
  accessed : List (String × sinsp_table_wrapper σ τ)

/-- `sinsp_plugin::table_api_get_table`: a cached handle is returned
as-is; otherwise the registry is consulted (null on unknown name, error
message on key-type mismatch) and a fresh boundary wrapper is built and
cached.  `s` and `st` are the backing-store states captured by the new
wrapper. -/
def table_api_get_table {σ τ : Type} (p : PluginState σ τ) (name : String)
    (key_type : StateType) (s : σ) (st : τ) :
    Option (sinsp_table_wrapper σ τ) × PluginState σ τ :=
  match alookup name p.accessed with
  | some w => (some w, p)
  | none =>
    match registry_get_table key_type name p.registry with
    | .error e => (none, { p with last_owner_err := e })
    | .ok none => (none, p)
    | .ok (some t) =>
      let w := mkSinspTableWrapper p.last_owner_err t s st
      (some w, { p with accessed := aupsert name w p.accessed })

/-- Modelled from the spec: one record's worth of field values inside a
native table (Entry, §3): typed slots addressed by field index, static
and dynamic slots in their own index spaces, dynamic slots lazily grown. -/
structure EntryData where
  svals : List (Nat × Data)
  dvals : List (Nat × Data)
deriving DecidableEq, Repr

/-- Modelled from the spec: the storage of a natively implemented
`libsinsp::state::table` (Entry Storage + Schema, §2-§3), which is not
part of the source tree.  Entries live in a heap keyed by handle (a
Detached entry exists only in the heap; an Inserted one is also keyed in
`entries`); the dynamic schema is append-only. -/
structure NativeState where
  dynf : List (String × FieldInfo)
  heap : List (Nat × EntryData)
  entries : List (Data × Nat)
  next : Nat
deriving DecidableEq, Repr

/-- Modelled from the spec: the native table operations over
`NativeState` (Generic Table Interface, §4.2): `erase_entry` on an absent
key reports failure and leaves the state unchanged; `add_entry` inserts
the detached entry under the key and hands back a reference to the same
entry; dynamic fields append with the next index of their own index
space. -/
def mkNativeTable (name : String) (key_info : StateType)
    (statics : List (String × FieldInfo)) : NativeTable NativeState where
  name := name
  key_info := key_info
  static_fields := statics
  dyn_fields := fun s => s.dynf
  entries_count := fun s => .ok s.entries.length
  clear_entries := fun s => .ok { s with entries := [] }
  new_entry := fun s =>
    .ok (s.next, { s with heap := s.heap ++ [(s.next, ⟨[], []⟩)], next := s.next + 1 })
  get_entry := fun k s => .ok (alookup k s.entries)
  add_entry := fun k e s => .ok (e, { s with entries := aupsert k e s.entries })
  erase_entry := fun k s =>
    match alookup k s.entries with
    | some e => .ok (true, { s with entries := aremove k s.entries, heap := aremove e s.heap })
    | none => .ok (false, s)
  add_dyn_field := fun nm ty s =>
    match alookup nm s.dynf with
    | some g =>
      if g.type = ty then .ok s
      else .error ("field already defined with incompatible type: " ++ nm)
    | none => .ok { s with dynf := s.dynf ++ [(nm, ⟨s.dynf.length, ty, false⟩)] }
  get_static_field := fun e idx ty s =>
    match alookup e s.heap with
    | none => .error "unknown table entry"
    | some ed => .ok ((alookup idx ed.svals).getD (defaultData ty))
  get_dynamic_field := fun e idx ty s =>
    match alookup e s.heap with
    | none => .error "unknown table entry"
    | some ed => .ok ((alookup idx ed.dvals).getD (defaultData ty))
  set_static_field := fun e idx _ty v s =>
    match alookup e s.heap with
    | none => .error "unknown table entry"
    | some ed =>
      .ok { s with heap := aupsert e { ed with svals := aupsert idx v ed.svals } s.heap }
  set_dynamic_field := fun e idx _ty v s =>
    match alookup e s.heap with
    | none => .error "unknown table entry"
    | some ed =>
      .ok { s with heap := aupsert e { ed with dvals := aupsert idx v ed.dvals } s.heap }

/-- One observable call into a foreign (plugin-implemented) table. -/
inductive FCall
  | listFields
  | getField (name : String)
  | addField (name : String)
  | getName | getSize
  | getEntry (k : Data) | addEntry (k : Data) (e : Nat) | eraseEntry (k : Data)
  | clearT | createEntry | destroyEntry (e : Nat)
  | readField (e a : Nat) | writeField (e a : Nat) (v : Data)
deriving DecidableEq, Repr

/-- Modelled from the spec: the backing store of a table owned by a
plugin, on the far side of the boundary.  `flog` records every boundary
call the plugin services, making "the foreign side was queried"
observable. -/
structure ForeignTable where
  fname : String
  fkey_type : StateType
  ffields : List ForeignFieldInfo
  fheap : List (Nat × List (Nat × Data))
  fentries : List (Data × Nat)
  fnext : Nat
  flog : List FCall
  flast_err : String
deriving DecidableEq, Repr

/-- Position of a named field among the foreign descriptors: the foreign
accessor handle for a field is its stable position. -/
def fieldIndex (name : String) : List ForeignFieldInfo → Option Nat
  | [] => none
  | d :: rest => if d.name = name then some 0 else (fieldIndex name rest).map (· + 1)

/-- Modelled from the spec: a conforming plugin-side implementation of
the boundary field vtable over `ForeignTable` (§6): descriptors are
append-only, accessor handles are positions, failures set the owner's
last error. -/
def foreignFieldsVTable : FieldsVTable ForeignTable where
  list_table_fields := fun s => (some s.ffields, { s with flog := s.flog ++ [.listFields] })
  get_table_field := fun name ty s =>
    let s1 := { s with flog := s.flog ++ [.getField name] }
    match fieldIndex name s.ffields with
    | some i =>
      if (s.ffields.getD i ⟨"", .uint64, false⟩).field_type = ty then (some i, s1)
      else (none, { s1 with flast_err := "incompatible field type: " ++ name })
    | none => (none, { s1 with flast_err := "unknown field: " ++ name })
  add_table_field := fun name ty s =>
    let s1 := { s with flog := s.flog ++ [.addField name] }
    match fieldIndex name s.ffields with
    | some i =>
      if (s.ffields.getD i ⟨"", .uint64, false⟩).field_type = ty then (some i, s1)
      else (none, { s1 with flast_err := "incompatible field type: " ++ name })
    | none => (some s.ffields.length, { s1 with ffields := s1.ffields ++ [⟨name, ty, false⟩] })

/-- Modelled from the spec: a conforming plugin-side reader vtable. -/
def foreignReaderVTable : ReaderVTable ForeignTable where
  get_table_name := fun s => (s.fname, s)
  get_table_size := fun s => (s.fentries.length, { s with flog := s.flog ++ [.getSize] })
  get_table_entry := fun k s =>
    (alookup k s.fentries, { s with flog := s.flog ++ [.getEntry k] })
  read_entry_field := fun e a s =>
    let s1 := { s with flog := s.flog ++ [.readField e a] }
    match alookup e s.fheap with
    | none => (none, { s1 with flast_err := "unknown table entry" })
    | some vals =>
      (some ((alookup a vals).getD
        (defaultData (s.ffields.getD a ⟨"", .uint64, false⟩).field_type)), s1)

/-- Modelled from the spec: a conforming plugin-side writer vtable;
erasing an absent key fails and leaves the table contents unchanged. -/
def foreignWriterVTable : WriterVTable ForeignTable where
  clear_table := fun s => (true, { s with fentries := [], flog := s.flog ++ [.clearT] })
  erase_table_entry := fun k s =>
    let s1 := { s with flog := s.flog ++ [FCall.eraseEntry k] }
    match alookup k s.fentries with
    | some e => (true, { s1 with fentries := aremove k s1.fentries, fheap := aremove e s1.fheap })
    | none => (false, { s1 with flast_err := "table entry not found" })
  create_table_entry := fun s =>
    (some s.fnext,
      { s with fheap := s.fheap ++ [(s.fnext, [])], fnext := s.fnext + 1,
               flog := s.flog ++ [.createEntry] })
  destroy_table_entry := fun e s =>
    { s with fheap := aremove e s.fheap, flog := s.flog ++ [.destroyEntry e] }
  add_table_entry := fun k e s =>
    (some e, { s with fentries := aupsert k e s.fentries, flog := s.flog ++ [.addEntry k e] })
  write_entry_field := fun e a v s =>
    let s1 := { s with flog := s.flog ++ [FCall.writeField e a v] }
    match alookup e s.fheap with
    | none => (false, { s1 with flast_err := "unknown table entry" })
    | some vals => (true, { s1 with fheap := aupsert e (aupsert a v vals) s1.fheap })

/-- A complete `ss_plugin_table_input` over the modelled plugin-side
store. -/
def mkForeignInput (name : String) (key_type : StateType) :
    TableInput ForeignTable where
  name := name
  key_type := key_type
  fields := foreignFieldsVTable
  reader := foreignReaderVTable
  writer := foreignWriterVTable
  owner_last_error := fun s => s.flast_err

/-- A concrete foreign input used to instantiate theorems. -/
def exForeignInput : TableInput ForeignTable := mkForeignInput "T" StateType.uint64

/-- A concrete foreign backing store: one field `a : uint64`, one
detached entry `0`, no inserted entries. -/
def exForeignState : ForeignTable :=
  ⟨"T", .uint64, [⟨"a", .uint64, false⟩], [(0, [])], [], 1, [], ""⟩

/-- A concrete native table with no static fields. -/
def exNT : NativeTable NativeState := mkNativeTable "t1" .uint64 []

/-- A concrete native backing store: one dynamic field `f : uint64`, one
detached entry `0`. -/
def exNativeState : NativeState :=
  ⟨[("f", ⟨0, .uint64, false⟩)], [(0, ⟨[], []⟩)], [], 1⟩

/-- A boundary wrapper around the concrete native table. -/
def exHostWrapper : sinsp_table_wrapper ForeignTable NativeState :=
  ⟨"", .uint64, [], [], none, exNativeState, exForeignState, []⟩

/-- A boundary wrapper whose wrapped table is plugin-owned. -/
def exPluginWrapper : sinsp_table_wrapper ForeignTable NativeState :=
  ⟨"", .uint64, [], [], some exForeignInput, exNativeState, exForeignState, []⟩

/-- A concrete native table declaring `f` as a static field; paired with
`exNativeState` (which also declares a dynamic `f`) it exhibits the
schema state the adapter's both-static-and-dynamic check rejects. -/
def exNTboth : NativeTable NativeState :=
  mkNativeTable "t" .uint64 [("f", ⟨0, .uint64, false⟩)]

/-- A concrete native table whose `entries_count` always raises. -/
def exNTfail : NativeTable NativeState :=
  { mkNativeTable "t1" .uint64 [] with entries_count := fun _ => .error "boom" }

/-- A concrete local field cache consistent with `exForeignState`:
field `a` at index `0` with its raw accessor already obtained. -/
def exPFI : plugin_field_infos := ⟨[("a", ⟨0, .uint64, false⟩)], [some 0]⟩

/-- The concrete host wrapper with an accessor for `f` already cached
(recorded with data type `uint64`). -/
def exHostWrapperCached : sinsp_table_wrapper ForeignTable NativeState :=
  { exHostWrapper with field_accessors := [("f", ⟨true, .uint64, 0⟩)] }

/-- A concrete registry holding one native table `T` keyed by `uint64`. -/
def exRegistry : List (String × RegTable ForeignTable NativeState) :=
  [("T", RegTable.native (mkNativeTable "T" .uint64 []))]

/-- A concrete per-plugin state over `exRegistry` with an empty
accessed-tables cache. -/
def exPluginState : PluginState ForeignTable NativeState := ⟨"", exRegistry, []⟩

/-!
## Helper lemmas
-/

theorem alookup_aupsert_self {α β : Type} [DecidableEq α] (k : α) (v : β)
    (l : List (α × β)) : alookup k (aupsert k v l) = some v := by
  induction l with
  | nil => simp [aupsert, alookup]
  | cons x rest ih =>
    obtain ⟨k2, v2⟩ := x
    by_cases hx : k2 = k
    · simp [aupsert, hx, alookup]
    · simp [aupsert, hx, alookup, ih]

theorem alookup_append_left {α β : Type} [DecidableEq α] (k : α) (v : β)
    (l l2 : List (α × β)) (h : alookup k l = some v) :
    alookup k (l ++ l2) = some v := by
  induction l with
  | nil => simp [alookup] at h
  | cons x rest ih =>
    obtain ⟨k2, v2⟩ := x
    by_cases hx : k2 = k
    · simpa [alookup, hx] using h
    · simp [alookup, hx] at h ⊢
      exact ih h

/-- `base_add_field` never rebinds a name that is already present. -/
theorem base_add_field_preserve {name : String} {f g : FieldInfo}
    {m m2 : List (String × FieldInfo)}
    (h : base_add_field name f m = .ok (g, m2))
    {a : String} {fi : FieldInfo} (ha : alookup a m = some fi) :
    alookup a m2 = some fi := by
  unfold base_add_field at h
  cases hl : alookup name m with
  | some g2 =>
    rw [hl] at h
    by_cases ht : g2.type = f.type
    · simp [ht] at h
      obtain ⟨-, rfl⟩ := h
      exact ha
    · simp [ht] at h
  | none =>
    rw [hl] at h
    simp at h
    obtain ⟨-, rfl⟩ := h
    exact alookup_append_left a fi m [(name, f)] ha

/-- The descriptor-import loop never rebinds a name that is already
present. -/
theorem import_fields_preserve {l : List ForeignFieldInfo} {i : Nat}
    {m m2 : List (String × FieldInfo)}
    (h : import_fields l i m = .ok m2)
    {a : String} {fi : FieldInfo} (ha : alookup a m = some fi) :
    alookup a m2 = some fi := by
  induction l generalizing i m with
  | nil =>
    simp [import_fields] at h
    exact h ▸ ha
  | cons d rest ih =>
    unfold import_fields at h
    cases hb : base_add_field d.name ⟨i, d.field_type, d.read_only⟩ m with
    | error e => rw [hb] at h; exact absurd h (by simp)
    | ok r =>
      rw [hb] at h
      exact ih h (base_add_field_preserve hb ha)

theorem lgetD_append_some {l l2 : List (Option Nat)} {i : Nat} {h : Nat}
    (hl : lgetD l i = some h) : lgetD (l ++ l2) i = some h := by
  induction l generalizing i with
  | nil => simp [lgetD] at hl
  | cons x rest ih =>
    cases i with
    | zero => simpa [lgetD] using hl
    | succ n => simpa [lgetD] using ih (by simpa [lgetD] using hl)

theorem lgetD_some_lt {l : List (Option Nat)} {i : Nat} {h : Nat}
    (hl : lgetD l i = some h) : i < l.length := by
  induction l generalizing i with
  | nil => simp [lgetD] at hl
  | cons x rest ih =>
    cases i with
    | zero => simp
    | succ n => exact Nat.succ_lt_succ (ih (by simpa [lgetD] using hl))

theorem ensure_size_keep {l : List (Option Nat)} {i : Nat} {h : Nat} (n : Nat)
    (hl : lgetD l i = some h) : lgetD (ensure_size l n) i = some h := by
  unfold ensure_size
  split
  · exact lgetD_append_some hl
  · exact hl

/-- Growing the vector up to an index already inside it is a no-op. -/
theorem ensure_size_of_lt {l : List (Option Nat)} {n : Nat}
    (h : n < l.length) : ensure_size l n = l := by
  simp [ensure_size, Nat.not_le.2 h]

theorem lset_keep_ne {l : List (Option Nat)} {i j : Nat} (v : Option Nat)
    (hne : i ≠ j) : lgetD (lset l j v) i = lgetD l i := by
  induction l generalizing i j with
  | nil => simp [lset]
  | cons x rest ih =>
    cases j with
    | zero =>
      cases i with
      | zero => exact absurd rfl hne
      | succ m => simp [lset, lgetD]
    | succ jn =>
      cases i with
      | zero => simp [lset, lgetD]
      | succ m => simpa [lset, lgetD] using ih (fun hc => hne (by omega))

/-- The accessor-acquisition loop never overwrites an accessor handle
already cached at an index. -/
theorem acquire_accessors_preserve {σ : Type} {i : TableInput σ}
    {fl : List (String × FieldInfo)} {accs accs2 : List (Option Nat)}
    {s s2 : σ} (h : acquire_accessors i fl accs s = .ok (accs2, s2))
    {idx hd : Nat} (ha : lgetD accs idx = some hd) :
    lgetD accs2 idx = some hd := by
  induction fl generalizing accs s with
  | nil =>
    simp [acquire_accessors] at h
    exact h.1 ▸ ha
  | cons f rest ih =>
    unfold acquire_accessors at h
    have ha1 : lgetD (ensure_size accs f.2.index) idx = some hd :=
      ensure_size_keep _ ha
    cases hg : lgetD (ensure_size accs f.2.index) f.2.index with
    | some hh => rw [hg] at h; exact ih h ha1
    | none =>
      rw [hg] at h
      cases hget : i.fields.get_table_field f.1 f.2.type s with
      | mk r s3 =>
        rw [hget] at h
        cases r with
        | none => exact absurd h (by simp)
        | some hnew =>
          simp at h
          have hne : idx ≠ f.2.index := fun hc => by
            rw [hc] at ha1; rw [ha1] at hg; exact Option.noConfusion hg
          exact ih h (by rw [lset_keep_ne _ hne]; exact ha1)

/-- When every cached field already has an accessor inside the vector,
the acquisition loop changes nothing and performs no foreign call. -/
theorem acquire_accessors_all_present {σ : Type} {i : TableInput σ}
    {fl : List (String × FieldInfo)} {accs : List (Option Nat)} {s : σ}
    (h : ∀ f ∈ fl, (lgetD accs f.2.index).isSome) :
    acquire_accessors i fl accs s = .ok (accs, s) := by
  induction fl with
  | nil => simp [acquire_accessors]
  | cons f rest ih =>
    have hf := h f (by simp)
    obtain ⟨hd, hfd⟩ := Option.isSome_iff_exists.1 hf
    have hlt : f.2.index < accs.length := lgetD_some_lt hfd
    unfold acquire_accessors
    rw [ensure_size_of_lt hlt, hfd]
    exact ih fun g hg => h g (by simp [hg])

/-!
## C9: `foreach_entry` on a plugin-owned table always fails, recoverably
-/

/-- C9: for every plugin-owned table accessed through the Plugin-Owned
Table Adapter, `foreach_entry` always fails with the explicit
unsupported-operation error naming the operation (`foreach`) and the
table; the failure is a recoverable `Except.error` raised before any
state is touched or any foreign call is made, so the table is not
modified. -/
theorem foreach_entry_always_unsupported {σ : Type} (i : TableInput σ)
    (dynp : plugin_field_infos) (pred : Nat → Bool) (s : σ) :
    plugin_table_wrapper.foreach_entry ⟨i, dynp⟩ pred s =
      .error (invalid_access_msg i.name "foreach") ∧
    invalid_access_msg i.name "foreach" =
      "operation \x27foreach\x27 not supported by plugin-owned table \x27" ++
        i.name ++ "\x27" := by
  exact ⟨rfl, rfl⟩

/-!
## C10: `destroy_table_entry` on a plugin-backed table destroys twice
-/

/-- C10: in the Host-Owned Table Adapter, when the wrapped table is
plugin-backed (`m_table_plugin_input` set), `destroy_table_entry`
forwards the destroy to the foreign writer and then does not return
early: the native destruction branch also runs and frees the same
foreign entry handle as if it were a native `table_entry`, so the
native-destruction branch is reachable for a plugin-backed table. -/
theorem destroy_table_entry_double_destroy {σ τ : Type}
    (nt : NativeTable τ) (w : sinsp_table_wrapper σ τ) (i : TableInput σ)
    (e : Nat) (h : w.plugin_input = some i) :
    sinsp_table_wrapper.destroy_table_entry nt w e =
      { w with foreign := i.writer.destroy_table_entry e w.foreign,
               natively_destroyed := e :: w.natively_destroyed } ∧
    e ∈ (sinsp_table_wrapper.destroy_table_entry nt w e).natively_destroyed := by
  unfold sinsp_table_wrapper.destroy_table_entry
  rw [h]
  exact ⟨rfl, by simp⟩

/-- Closed instance of the C10 theorem at a concrete plugin-backed
wrapper. -/
theorem destroy_table_entry_double_destroy_witness :
    exPluginWrapper.plugin_input = some exForeignInput ∧
    (sinsp_table_wrapper.destroy_table_entry exNT exPluginWrapper 0 =
      { exPluginWrapper with
          foreign := exForeignInput.writer.destroy_table_entry 0 exPluginWrapper.foreign,
          natively_destroyed := 0 :: exPluginWrapper.natively_destroyed } ∧
      0 ∈ (sinsp_table_wrapper.destroy_table_entry exNT exPluginWrapper 0).natively_destroyed) :=
  ⟨rfl, destroy_table_entry_double_destroy exNT exPluginWrapper exForeignInput 0 rfl⟩

/-!
## C1: pass-through to a plugin-owned table

Each boundary operation of a wrapper whose wrapped table is plugin-owned
forwards to the original foreign vtable: same result, same foreign
backing-store state.
-/

theorem fwd_list_fields {σ τ : Type} (nt : NativeTable τ)
    (w : sinsp_table_wrapper σ τ) (i : TableInput σ)
    (h : w.plugin_input = some i) :
    (sinsp_table_wrapper.list_fields nt w).1 = (i.fields.list_table_fields w.foreign).1 ∧
    (sinsp_table_wrapper.list_fields nt w).2.foreign = (i.fields.list_table_fields w.foreign).2 := by
  unfold sinsp_table_wrapper.list_fields
  rw [h]
  rcases hc : i.fields.list_table_fields w.foreign with ⟨r, s2⟩
  cases r <;> simp [hc]

theorem fwd_get_field {σ τ : Type} (nt : NativeTable τ)
    (w : sinsp_table_wrapper σ τ) (i : TableInput σ)
    (h : w.plugin_input = some i) (name : String) (dt : StateType) :
    (sinsp_table_wrapper.get_field nt w name dt).1 =
      ((i.fields.get_table_field name dt w.foreign).1).map FieldHandle.foreign ∧
    (sinsp_table_wrapper.get_field nt w name dt).2.foreign =
      (i.fields.get_table_field name dt w.foreign).2 := by
  unfold sinsp_table_wrapper.get_field
  rw [h]
  rcases hc : i.fields.get_table_field name dt w.foreign with ⟨r, s2⟩
  cases r <;> simp [hc]

theorem fwd_add_field {σ τ : Type} (nt : NativeTable τ)
    (w : sinsp_table_wrapper σ τ) (i : TableInput σ)
    (h : w.plugin_input = some i) (name : String) (dt : StateType) :
    (sinsp_table_wrapper.add_field nt w name dt).1 =
      ((i.fields.add_table_field name dt w.foreign).1).map FieldHandle.foreign ∧
    (sinsp_table_wrapper.add_field nt w name dt).2.foreign =
      (i.fields.add_table_field name dt w.foreign).2 := by
  unfold sinsp_table_wrapper.add_field
  rw [h]
  rcases hc : i.fields.add_table_field name dt w.foreign with ⟨r, s2⟩
  cases r <;> simp [hc]

theorem fwd_get_name {σ τ : Type} (nt : NativeTable τ)
    (w : sinsp_table_wrapper σ τ) (i : TableInput σ)
    (h : w.plugin_input = some i)
    (hname : i.reader.get_table_name w.foreign = (i.name, w.foreign)) :
    (sinsp_table_wrapper.get_name nt w).1 = some (i.reader.get_table_name w.foreign).1 ∧
    (sinsp_table_wrapper.get_name nt w).2.foreign = (i.reader.get_table_name w.foreign).2 := by
  simp [sinsp_table_wrapper.get_name, h, hname]

theorem fwd_get_size {σ τ : Type} (nt : NativeTable τ)
    (w : sinsp_table_wrapper σ τ) (i : TableInput σ)
    (h : w.plugin_input = some i) :
    (sinsp_table_wrapper.get_size nt w).1 = (i.reader.get_table_size w.foreign).1 ∧
    (sinsp_table_wrapper.get_size nt w).2.foreign = (i.reader.get_table_size w.foreign).2 := by
  unfold sinsp_table_wrapper.get_size
  rw [h]
  rcases hc : i.reader.get_table_size w.foreign with ⟨r, s2⟩
  by_cases hr : r = u64max <;> simp [hc, hr]

theorem fwd_get_entry {σ τ : Type} (nt : NativeTable τ)
    (w : sinsp_table_wrapper σ τ) (i : TableInput σ)
    (h : w.plugin_input = some i) (key : Data) :
    (sinsp_table_wrapper.get_entry nt w key).1 = (i.reader.get_table_entry key w.foreign).1 ∧
    (sinsp_table_wrapper.get_entry nt w key).2.foreign =
      (i.reader.get_table_entry key w.foreign).2 := by
  unfold sinsp_table_wrapper.get_entry
  rw [h]
  rcases hc : i.reader.get_table_entry key w.foreign with ⟨r, s2⟩
  cases r <;> simp [hc]

theorem fwd_read_entry_field {σ τ : Type} (nt : NativeTable τ)
    (w : sinsp_table_wrapper σ τ) (i : TableInput σ)
    (h : w.plugin_input = some i) (e hf : Nat) :
    (sinsp_table_wrapper.read_entry_field nt w e (.foreign hf)).1 =
      (i.reader.read_entry_field e hf w.foreign).1 ∧
    (sinsp_table_wrapper.read_entry_field nt w e (.foreign hf)).2.foreign =
      (i.reader.read_entry_field e hf w.foreign).2 := by
  unfold sinsp_table_wrapper.read_entry_field
  rw [h]
  rcases hc : i.reader.read_entry_field e hf w.foreign with ⟨r, s2⟩
  cases r <;> simp [hc, FieldHandle.asForeign]

theorem fwd_clear {σ τ : Type} (nt : NativeTable τ)
    (w : sinsp_table_wrapper σ τ) (i : TableInput σ)
    (h : w.plugin_input = some i) :
    (sinsp_table_wrapper.clear nt w).1 = (i.writer.clear_table w.foreign).1 ∧
    (sinsp_table_wrapper.clear nt w).2.foreign = (i.writer.clear_table w.foreign).2 := by
  unfold sinsp_table_wrapper.clear
  rw [h]
  rcases hc : i.writer.clear_table w.foreign with ⟨r, s2⟩
  cases r <;> simp [hc]

theorem fwd_erase_entry {σ τ : Type} (nt : NativeTable τ)
    (w : sinsp_table_wrapper σ τ) (i : TableInput σ)
    (h : w.plugin_input = some i) (key : Data) :
    (sinsp_table_wrapper.erase_entry nt w key).1 = (i.writer.erase_table_entry key w.foreign).1 ∧
    (sinsp_table_wrapper.erase_entry nt w key).2.foreign =
      (i.writer.erase_table_entry key w.foreign).2 := by
  unfold sinsp_table_wrapper.erase_entry
  rw [h]
  rcases hc : i.writer.erase_table_entry key w.foreign with ⟨r, s2⟩
  cases r <;> simp [hc]

theorem fwd_create_table_entry {σ τ : Type} (nt : NativeTable τ)
    (w : sinsp_table_wrapper σ τ) (i : TableInput σ)
    (h : w.plugin_input = some i) :
    (sinsp_table_wrapper.create_table_entry nt w).1 =
      (i.writer.create_table_entry w.foreign).1 ∧
    (sinsp_table_wrapper.create_table_entry nt w).2.foreign =
      (i.writer.create_table_entry w.foreign).2 := by
  unfold sinsp_table_wrapper.create_table_entry
  rw [h]
  rcases hc : i.writer.create_table_entry w.foreign with ⟨r, s2⟩
  cases r <;> simp [hc]

theorem fwd_destroy_table_entry {σ τ : Type} (nt : NativeTable τ)
    (w : sinsp_table_wrapper σ τ) (i : TableInput σ)
    (h : w.plugin_input = some i) (e : Nat) :
    (sinsp_table_wrapper.destroy_table_entry nt w e).foreign =
      i.writer.destroy_table_entry e w.foreign := by
  unfold sinsp_table_wrapper.destroy_table_entry
  rw [h]

theorem fwd_add_entry {σ τ : Type} (nt : NativeTable τ)
    (w : sinsp_table_wrapper σ τ) (i : TableInput σ)
    (h : w.plugin_input = some i) (key : Data) (e : Nat) :
    (sinsp_table_wrapper.add_entry nt w key e).1 =
      (i.writer.add_table_entry key e w.foreign).1 ∧
    (sinsp_table_wrapper.add_entry nt w key e).2.foreign =
      (i.writer.add_table_entry key e w.foreign).2 := by
  unfold sinsp_table_wrapper.add_entry
  rw [h]
  rcases hc : i.writer.add_table_entry key e w.foreign with ⟨r, s2⟩
  cases r <;> simp [hc]

theorem fwd_write_entry_field {σ τ : Type} (nt : NativeTable τ)
    (w : sinsp_table_wrapper σ τ) (i : TableInput σ)
    (h : w.plugin_input = some i) (e hf : Nat) (din : Data) :
    (sinsp_table_wrapper.write_entry_field nt w e (.foreign hf) din).1 =
      (i.writer.write_entry_field e hf din w.foreign).1 ∧
    (sinsp_table_wrapper.write_entry_field nt w e (.foreign hf) din).2.foreign =
      (i.writer.write_entry_field e hf din w.foreign).2 := by
  unfold sinsp_table_wrapper.write_entry_field
  rw [h]
  rcases hc : i.writer.write_entry_field e hf din w.foreign with ⟨r, s2⟩
  cases r <;> simp [hc, FieldHandle.asForeign]

/-- The Boundary Dispatcher hands a foreign caller requesting a
plugin-owned table a wrapper that carries the original foreign input. -/
theorem get_table_plugin_owned {σ τ : Type} (p : PluginState σ τ)
    (name : String) (kt : StateType) (s : σ) (st : τ) (i : TableInput σ)
    (hmiss : alookup name p.accessed = none)
    (hreg : alookup name p.registry = some (.plugin i))
    (hkt : i.key_type = kt) :
    (table_api_get_table p name kt s st).1 =
      some (mkSinspTableWrapper p.last_owner_err (.plugin i) s st) ∧
    (mkSinspTableWrapper p.last_owner_err (RegTable.plugin i) s st).plugin_input
      = some i := by
  unfold table_api_get_table registry_get_table
  rw [hmiss, hreg]
  simp [RegTable.keyType, hkt, mkSinspTableWrapper]

/-- C1: when a foreign caller requests a plugin-owned table through the
Boundary Dispatcher, the handle it receives carries the original
plugin-provided input (`table_api_get_table` conjunct), and every
boundary operation on that handle forwards to the original foreign
function table: same result and same foreign backing-store state as
calling the plugin-provided vtable directly on the shared store — a
single shared backing store with no second wrapping layer, so writes
through one plugin's handle are immediately visible to the owner's own
handle.  (The comparison is on results and the foreign backing store;
`destroy_table_entry` additionally performs a host-side native
destruction, settled separately under the destroy claim.) -/
theorem plugin_owned_table_pass_through {σ τ : Type} (nt : NativeTable τ)
    (w : sinsp_table_wrapper σ τ) (i : TableInput σ)
    (h : w.plugin_input = some i)
    (hname : i.reader.get_table_name w.foreign = (i.name, w.foreign)) :
    ((sinsp_table_wrapper.list_fields nt w).1 = (i.fields.list_table_fields w.foreign).1 ∧
     (sinsp_table_wrapper.list_fields nt w).2.foreign = (i.fields.list_table_fields w.foreign).2) ∧
    (∀ name dt,
      (sinsp_table_wrapper.get_field nt w name dt).1 =
        ((i.fields.get_table_field name dt w.foreign).1).map FieldHandle.foreign ∧
      (sinsp_table_wrapper.get_field nt w name dt).2.foreign =
        (i.fields.get_table_field name dt w.foreign).2) ∧
    (∀ name dt,
      (sinsp_table_wrapper.add_field nt w name dt).1 =
        ((i.fields.add_table_field name dt w.foreign).1).map FieldHandle.foreign ∧
      (sinsp_table_wrapper.add_field nt w name dt).2.foreign =
        (i.fields.add_table_field name dt w.foreign).2) ∧
    ((sinsp_table_wrapper.get_name nt w).1 = some (i.reader.get_table_name w.foreign).1 ∧
     (sinsp_table_wrapper.get_name nt w).2.foreign = (i.reader.get_table_name w.foreign).2) ∧
    ((sinsp_table_wrapper.get_size nt w).1 = (i.reader.get_table_size w.foreign).1 ∧
     (sinsp_table_wrapper.get_size nt w).2.foreign = (i.reader.get_table_size w.foreign).2) ∧
    (∀ key,
      (sinsp_table_wrapper.get_entry nt w key).1 = (i.reader.get_table_entry key w.foreign).1 ∧
      (sinsp_table_wrapper.get_entry nt w key).2.foreign =
        (i.reader.get_table_entry key w.foreign).2) ∧
    (∀ e hf,
      (sinsp_table_wrapper.read_entry_field nt w e (.foreign hf)).1 =
        (i.reader.read_entry_field e hf w.foreign).1 ∧
      (sinsp_table_wrapper.read_entry_field nt w e (.foreign hf)).2.foreign =
        (i.reader.read_entry_field e hf w.foreign).2) ∧
    ((sinsp_table_wrapper.clear nt w).1 = (i.writer.clear_table w.foreign).1 ∧
     (sinsp_table_wrapper.clear nt w).2.foreign = (i.writer.clear_table w.foreign).2) ∧
    (∀ key,
      (sinsp_table_wrapper.erase_entry nt w key).1 =
        (i.writer.erase_table_entry key w.foreign).1 ∧
      (sinsp_table_wrapper.erase_entry nt w key).2.foreign =
        (i.writer.erase_table_entry key w.foreign).2) ∧
    ((sinsp_table_wrapper.create_table_entry nt w).1 =
       (i.writer.create_table_entry w.foreign).1 ∧
     (sinsp_table_wrapper.create_table_entry nt w).2.foreign =
       (i.writer.create_table_entry w.foreign).2) ∧
    (∀ e, (sinsp_table_wrapper.destroy_table_entry nt w e).foreign =
       i.writer.destroy_table_entry e w.foreign) ∧
    (∀ key e,
      (sinsp_table_wrapper.add_entry nt w key e).1 =
        (i.writer.add_table_entry key e w.foreign).1 ∧
      (sinsp_table_wrapper.add_entry nt w key e).2.foreign =
        (i.writer.add_table_entry key e w.foreign).2) ∧
    (∀ e hf din,
      (sinsp_table_wrapper.write_entry_field nt w e (.foreign hf) din).1 =
        (i.writer.write_entry_field e hf din w.foreign).1 ∧
      (sinsp_table_wrapper.write_entry_field nt w e (.foreign hf) din).2.foreign =
        (i.writer.write_entry_field e hf din w.foreign).2) ∧
    (∀ (p : PluginState σ τ) (nm : String) (s2 : σ) (st : τ),
      alookup nm p.accessed = none →
      alookup nm p.registry = some (RegTable.plugin i) →
      (table_api_get_table p nm i.key_type s2 st).1 =
        some (mkSinspTableWrapper p.last_owner_err (RegTable.plugin i) s2 st) ∧
      (mkSinspTableWrapper p.last_owner_err (RegTable.plugin i) s2 st).plugin_input
        = some i) :=
  ⟨fwd_list_fields nt w i h,
   fun name dt => fwd_get_field nt w i h name dt,
   fun name dt => fwd_add_field nt w i h name dt,
   fwd_get_name nt w i h hname,
   fwd_get_size nt w i h,
   fun key => fwd_get_entry nt w i h key,
   fun e hf => fwd_read_entry_field nt w i h e hf,
   fwd_clear nt w i h,
   fun key => fwd_erase_entry nt w i h key,
   fwd_create_table_entry nt w i h,
   fun e => fwd_destroy_table_entry nt w i h e,
   fun key e => fwd_add_entry nt w i h key e,
   fun e hf din => fwd_write_entry_field nt w i h e hf din,
   fun p nm s2 st hm hr => get_table_plugin_owned p nm i.key_type s2 st i hm hr rfl⟩

/-- Closed instance of the C1 theorem at the concrete plugin-backed
wrapper, exercising the erased hypotheses and a write-then-direct-read
visibility check on the shared backing store. -/
theorem plugin_owned_table_pass_through_witness :
    (exPluginWrapper.plugin_input = some exForeignInput ∧
     exForeignInput.reader.get_table_name exPluginWrapper.foreign =
       (exForeignInput.name, exPluginWrapper.foreign)) ∧
    ((sinsp_table_wrapper.get_size exNT exPluginWrapper).1 =
       (exForeignInput.reader.get_table_size exPluginWrapper.foreign).1 ∧
     (sinsp_table_wrapper.get_size exNT exPluginWrapper).2.foreign =
       (exForeignInput.reader.get_table_size exPluginWrapper.foreign).2) ∧
    ((sinsp_table_wrapper.write_entry_field exNT exPluginWrapper 0
        (.foreign 0) (Data.u64 5)).2.foreign =
       (exForeignInput.writer.write_entry_field 0 0 (Data.u64 5)
          exPluginWrapper.foreign).2) := by
  have hmain := plugin_owned_table_pass_through exNT exPluginWrapper exForeignInput rfl rfl
  exact ⟨⟨rfl, rfl⟩, hmain.2.2.2.2.1, (hmain.2.2.2.2.2.2.2.2.2.2.2.2.1 0 0 (Data.u64 5)).2⟩

/-!
## C2: boundary error translation in the Host-Owned Table Adapter

Every boundary operation is total (no native exception escapes: the
`Except`-valued native calls are always matched on, mirroring the
`__CATCH_ERR_MSG` wrappers).  The lemmas below show that whenever a
caught exception stored a message (the only way `owner_err` can change),
the call returned its sentinel — except for `get_field` on a name
defined both static and dynamic.
-/

theorem exn_get_size {σ τ : Type} (nt : NativeTable τ)
    (w : sinsp_table_wrapper σ τ) (h : w.plugin_input = none) {msg : String}
    (hc : nt.entries_count w.native = .error msg) :
    sinsp_table_wrapper.get_size nt w = (u64max, { w with owner_err := msg }) := by
  simp [sinsp_table_wrapper.get_size, h, hc]

theorem err_to_sentinel_get_size {σ τ : Type} (nt : NativeTable τ)
    (w : sinsp_table_wrapper σ τ) (h : w.plugin_input = none)
    (hne : (sinsp_table_wrapper.get_size nt w).2.owner_err ≠ w.owner_err) :
    (sinsp_table_wrapper.get_size nt w).1 = u64max := by
  cases hc : nt.entries_count w.native with
  | ok n => exact absurd (by simp [sinsp_table_wrapper.get_size, h, hc]) hne
  | error e => simp [sinsp_table_wrapper.get_size, h, hc]

theorem err_to_sentinel_list_fields {σ τ : Type} (nt : NativeTable τ)
    (w : sinsp_table_wrapper σ τ) (h : w.plugin_input = none)
    (hne : (sinsp_table_wrapper.list_fields nt w).2.owner_err ≠ w.owner_err) :
    (sinsp_table_wrapper.list_fields nt w).1 = none :=
  absurd (by simp [sinsp_table_wrapper.list_fields, h]) hne

theorem err_to_sentinel_get_name {σ τ : Type} (nt : NativeTable τ)
    (w : sinsp_table_wrapper σ τ) (h : w.plugin_input = none)
    (hne : (sinsp_table_wrapper.get_name nt w).2.owner_err ≠ w.owner_err) :
    (sinsp_table_wrapper.get_name nt w).1 = none :=
  absurd (by simp [sinsp_table_wrapper.get_name, h]) hne

theorem exn_get_entry {σ τ : Type} (nt : NativeTable τ)
    (w : sinsp_table_wrapper σ τ) (key : Data) (h : w.plugin_input = none)
    {msg : String}
    (hc : nt.get_entry (unionGet w.key_type key) w.native = .error msg) :
    sinsp_table_wrapper.get_entry nt w key = (none, { w with owner_err := msg }) := by
  simp [sinsp_table_wrapper.get_entry, h, hc]

theorem err_to_sentinel_get_entry {σ τ : Type} (nt : NativeTable τ)
    (w : sinsp_table_wrapper σ τ) (key : Data) (h : w.plugin_input = none)
    (hne : (sinsp_table_wrapper.get_entry nt w key).2.owner_err ≠ w.owner_err) :
    (sinsp_table_wrapper.get_entry nt w key).1 = none := by
  cases hc : nt.get_entry (unionGet w.key_type key) w.native with
  | ok r => exact absurd (by simp [sinsp_table_wrapper.get_entry, h, hc]) hne
  | error e => simp [sinsp_table_wrapper.get_entry, h, hc]

theorem exn_read_entry_field {σ τ : Type} (nt : NativeTable τ)
    (w : sinsp_table_wrapper σ τ) (e : Nat) (a : field_accessor_wrapper)
    (h : w.plugin_input = none) {msg : String}
    (hc : (if a.dynamic then nt.get_dynamic_field e a.accessor a.data_type w.native
           else nt.get_static_field e a.accessor a.data_type w.native) = .error msg) :
    sinsp_table_wrapper.read_entry_field nt w e (.host a) =
      (none, { w with owner_err := msg }) := by
  simp [sinsp_table_wrapper.read_entry_field, h, FieldHandle.asHost, hc]

theorem err_to_sentinel_read_entry_field {σ τ : Type} (nt : NativeTable τ)
    (w : sinsp_table_wrapper σ τ) (e : Nat) (a : field_accessor_wrapper)
    (h : w.plugin_input = none)
    (hne : (sinsp_table_wrapper.read_entry_field nt w e (.host a)).2.owner_err
      ≠ w.owner_err) :
    (sinsp_table_wrapper.read_entry_field nt w e (.host a)).1 = none := by
  cases hc : (if a.dynamic then nt.get_dynamic_field e a.accessor a.data_type w.native
              else nt.get_static_field e a.accessor a.data_type w.native) with
  | ok d =>
    exact absurd
      (by simp [sinsp_table_wrapper.read_entry_field, h, FieldHandle.asHost, hc]) hne
  | error ex =>
    simp [sinsp_table_wrapper.read_entry_field, h, FieldHandle.asHost, hc]

theorem exn_clear {σ τ : Type} (nt : NativeTable τ)
    (w : sinsp_table_wrapper σ τ) (h : w.plugin_input = none) {msg : String}
    (hc : nt.clear_entries w.native = .error msg) :
    sinsp_table_wrapper.clear nt w = (false, { w with owner_err := msg }) := by
  simp [sinsp_table_wrapper.clear, h, hc]

theorem err_to_sentinel_clear {σ τ : Type} (nt : NativeTable τ)
    (w : sinsp_table_wrapper σ τ) (h : w.plugin_input = none)
    (hne : (sinsp_table_wrapper.clear nt w).2.owner_err ≠ w.owner_err) :
    (sinsp_table_wrapper.clear nt w).1 = false := by
  cases hc : nt.clear_entries w.native with
  | ok t2 => exact absurd (by simp [sinsp_table_wrapper.clear, h, hc]) hne
  | error e => simp [sinsp_table_wrapper.clear, h, hc]

theorem exn_erase_entry {σ τ : Type} (nt : NativeTable τ)
    (w : sinsp_table_wrapper σ τ) (key : Data) (h : w.plugin_input = none)
    {msg : String}
    (hc : nt.erase_entry (unionGet w.key_type key) w.native = .error msg) :
    sinsp_table_wrapper.erase_entry nt w key = (false, { w with owner_err := msg }) := by
  simp [sinsp_table_wrapper.erase_entry, h, hc]

theorem err_to_sentinel_erase_entry {σ τ : Type} (nt : NativeTable τ)
    (w : sinsp_table_wrapper σ τ) (key : Data) (h : w.plugin_input = none)
    (hne : (sinsp_table_wrapper.erase_entry nt w key).2.owner_err ≠ w.owner_err) :
    (sinsp_table_wrapper.erase_entry nt w key).1 = false := by
  cases hc : nt.erase_entry (unionGet w.key_type key) w.native with
  | ok r =>
    rcases r with ⟨b, t2⟩
    cases b with
    | true => exact absurd (by simp [sinsp_table_wrapper.erase_entry, h, hc]) hne
    | false => simp [sinsp_table_wrapper.erase_entry, h, hc]
  | error e => simp [sinsp_table_wrapper.erase_entry, h, hc]

theorem exn_create_table_entry {σ τ : Type} (nt : NativeTable τ)
    (w : sinsp_table_wrapper σ τ) (h : w.plugin_input = none) {msg : String}
    (hc : nt.new_entry w.native = .error msg) :
    sinsp_table_wrapper.create_table_entry nt w =
      (none, { w with owner_err := msg }) := by
  simp [sinsp_table_wrapper.create_table_entry, h, hc]

theorem err_to_sentinel_create_table_entry {σ τ : Type} (nt : NativeTable τ)
    (w : sinsp_table_wrapper σ τ) (h : w.plugin_input = none)
    (hne : (sinsp_table_wrapper.create_table_entry nt w).2.owner_err ≠ w.owner_err) :
    (sinsp_table_wrapper.create_table_entry nt w).1 = none := by
  cases hc : nt.new_entry w.native with
  | ok r =>
    exact absurd (by simp [sinsp_table_wrapper.create_table_entry, h, hc]) hne
  | error e => simp [sinsp_table_wrapper.create_table_entry, h, hc]

theorem exn_add_entry {σ τ : Type} (nt : NativeTable τ)
    (w : sinsp_table_wrapper σ τ) (key : Data) (e : Nat)
    (h : w.plugin_input = none) {msg : String}
    (hc : nt.add_entry (unionGet w.key_type key) e w.native = .error msg) :
    sinsp_table_wrapper.add_entry nt w key e = (none, { w with owner_err := msg }) := by
  simp [sinsp_table_wrapper.add_entry, h, hc]

theorem err_to_sentinel_add_entry {σ τ : Type} (nt : NativeTable τ)
    (w : sinsp_table_wrapper σ τ) (key : Data) (e : Nat)
    (h : w.plugin_input = none)
    (hne : (sinsp_table_wrapper.add_entry nt w key e).2.owner_err ≠ w.owner_err) :
    (sinsp_table_wrapper.add_entry nt w key e).1 = none := by
  cases hc : nt.add_entry (unionGet w.key_type key) e w.native with
  | ok r => exact absurd (by simp [sinsp_table_wrapper.add_entry, h, hc]) hne
  | error ex => simp [sinsp_table_wrapper.add_entry, h, hc]

theorem exn_write_entry_field {σ τ : Type} (nt : NativeTable τ)
    (w : sinsp_table_wrapper σ τ) (e : Nat) (a : field_accessor_wrapper)
    (din : Data) (h : w.plugin_input = none) {msg : String}
    (hc : (if a.dynamic then
             nt.set_dynamic_field e a.accessor a.data_type (unionGet a.data_type din) w.native
           else
             nt.set_static_field e a.accessor a.data_type (unionGet a.data_type din) w.native)
          = .error msg) :
    sinsp_table_wrapper.write_entry_field nt w e (.host a) din =
      (false, { w with owner_err := msg }) := by
  simp [sinsp_table_wrapper.write_entry_field, h, FieldHandle.asHost, hc]

theorem err_to_sentinel_write_entry_field {σ τ : Type} (nt : NativeTable τ)
    (w : sinsp_table_wrapper σ τ) (e : Nat) (a : field_accessor_wrapper)
    (din : Data) (h : w.plugin_input = none)
    (hne : (sinsp_table_wrapper.write_entry_field nt w e (.host a) din).2.owner_err
      ≠ w.owner_err) :
    (sinsp_table_wrapper.write_entry_field nt w e (.host a) din).1 = false := by
  cases hc : (if a.dynamic then
               nt.set_dynamic_field e a.accessor a.data_type (unionGet a.data_type din) w.native
             else
               nt.set_static_field e a.accessor a.data_type (unionGet a.data_type din) w.native) with
  | ok t2 =>
    exact absurd
      (by simp [sinsp_table_wrapper.write_entry_field, h, FieldHandle.asHost, hc]) hne
  | error ex =>
    simp [sinsp_table_wrapper.write_entry_field, h, FieldHandle.asHost, hc]

theorem err_to_sentinel_get_field {σ τ : Type} (nt : NativeTable τ)
    (w : sinsp_table_wrapper σ τ) (name : String) (dt : StateType)
    (h : w.plugin_input = none)
    (hne : (sinsp_table_wrapper.get_field nt w name dt).2.owner_err ≠ w.owner_err) :
    (sinsp_table_wrapper.get_field nt w name dt).1 = none ∨
      ((alookup name nt.static_fields).isSome ∧
       (alookup name (nt.dyn_fields w.native)).isSome) := by
  cases hcache : alookup name w.field_accessors with
  | some acc =>
    exact absurd (by simp [sinsp_table_wrapper.get_field, h, hcache]) hne
  | none =>
    cases hfix : alookup name nt.static_fields with
    | some fi =>
      cases hdyn : alookup name (nt.dyn_fields w.native) with
      | some di => exact Or.inr (by simp [hfix, hdyn])
      | none =>
        by_cases ht : dt = fi.type
        · exact absurd
            (by simp [sinsp_table_wrapper.get_field, h, hcache, hfix, hdyn, ht]) hne
        · exact Or.inl (by
            simp [sinsp_table_wrapper.get_field, sinsp_table_wrapper.get_field_dyn,
              h, hcache, hfix, hdyn, ht])
    | none =>
      cases hdyn : alookup name (nt.dyn_fields w.native) with
      | some di =>
        by_cases ht : dt = di.type
        · exact absurd (by
            simp [sinsp_table_wrapper.get_field, sinsp_table_wrapper.get_field_dyn,
              h, hcache, hfix, hdyn, ht]) hne
        · exact Or.inl (by
            simp [sinsp_table_wrapper.get_field, sinsp_table_wrapper.get_field_dyn,
              h, hcache, hfix, hdyn, ht])
      | none =>
        exact Or.inl (by
          simp [sinsp_table_wrapper.get_field, sinsp_table_wrapper.get_field_dyn,
            h, hcache, hfix, hdyn])

theorem err_to_sentinel_add_field {σ τ : Type} (nt : NativeTable τ)
    (w : sinsp_table_wrapper σ τ) (name : String) (dt : StateType)
    (h : w.plugin_input = none)
    (hne : (sinsp_table_wrapper.add_field nt w name dt).2.owner_err ≠ w.owner_err) :
    (sinsp_table_wrapper.add_field nt w name dt).1 = none := by
  cases hs : alookup name nt.static_fields with
  | some fi => simp [sinsp_table_wrapper.add_field, h, hs]
  | none =>
    cases hc : nt.add_dyn_field name dt w.native with
    | error e => simp [sinsp_table_wrapper.add_field, h, hs, hc]
    | ok t2 =>
      have heq : sinsp_table_wrapper.add_field nt w name dt =
          sinsp_table_wrapper.get_field nt { w with native := t2 } name dt := by
        simp [sinsp_table_wrapper.add_field, h, hs, hc]
      rw [heq] at hne ⊢
      rcases err_to_sentinel_get_field nt { w with native := t2 } name dt h hne with
        hres | ⟨hsome, -⟩
      · exact hres
      · simp [hs] at hsome

/-- C2 counterexample: in `get_field`, a name defined both static and
dynamic raises a native exception that is caught and its message stored
in the owner's last-error slot, yet the call does not return the `NULL`
sentinel: a later lookup phase still returns an accessor.  This refutes
the claim that every serviced exception makes the call return the
sentinel failure value. -/
theorem boundary_error_translation_counterexample :
    sinsp_table_wrapper.get_field exNTboth exHostWrapper "f" .uint64 =
      (some (.host ⟨false, .uint64, 0⟩),
       { exHostWrapper with
           owner_err := "field is defined as both static and dynamic: f",
           field_accessors := [("f", ⟨false, .uint64, 0⟩)] }) ∧
    "field is defined as both static and dynamic: f" ≠ exHostWrapper.owner_err ∧
    (sinsp_table_wrapper.get_field exNTboth exHostWrapper "f" .uint64).1 ≠ none := by
  refine ⟨rfl, by decide, by decide⟩

/-- C2 (amended): for every boundary-facing operation of the Host-Owned
Table Adapter, any native exception raised while servicing the call is
caught inside the adapter (each operation is a total function: the
`Except`-valued native calls never escape) and its message is stored in
the owner plugin's last-error slot.  Whenever a caught exception changed
the last-error slot the call returns the sentinel failure value — with
one exception: `get_field` on a name defined both static and dynamic can
store the message and still return an accessor.  The final group of
conjuncts shows the sentinel-plus-stored-message pair explicitly for
each native call that raises. -/
theorem boundary_error_translation_amended {σ τ : Type} (nt : NativeTable τ)
    (w : sinsp_table_wrapper σ τ) (h : w.plugin_input = none) :
    ((sinsp_table_wrapper.list_fields nt w).2.owner_err ≠ w.owner_err →
      (sinsp_table_wrapper.list_fields nt w).1 = none) ∧
    (∀ name dt,
      (sinsp_table_wrapper.get_field nt w name dt).2.owner_err ≠ w.owner_err →
      (sinsp_table_wrapper.get_field nt w name dt).1 = none ∨
        ((alookup name nt.static_fields).isSome ∧
         (alookup name (nt.dyn_fields w.native)).isSome)) ∧
    (∀ name dt,
      (sinsp_table_wrapper.add_field nt w name dt).2.owner_err ≠ w.owner_err →
      (sinsp_table_wrapper.add_field nt w name dt).1 = none) ∧
    ((sinsp_table_wrapper.get_name nt w).2.owner_err ≠ w.owner_err →
      (sinsp_table_wrapper.get_name nt w).1 = none) ∧
    ((sinsp_table_wrapper.get_size nt w).2.owner_err ≠ w.owner_err →
      (sinsp_table_wrapper.get_size nt w).1 = u64max) ∧
    (∀ key,
      (sinsp_table_wrapper.get_entry nt w key).2.owner_err ≠ w.owner_err →
      (sinsp_table_wrapper.get_entry nt w key).1 = none) ∧
    (∀ e a,
      (sinsp_table_wrapper.read_entry_field nt w e (.host a)).2.owner_err ≠ w.owner_err →
      (sinsp_table_wrapper.read_entry_field nt w e (.host a)).1 = none) ∧
    ((sinsp_table_wrapper.clear nt w).2.owner_err ≠ w.owner_err →
      (sinsp_table_wrapper.clear nt w).1 = false) ∧
    (∀ key,
      (sinsp_table_wrapper.erase_entry nt w key).2.owner_err ≠ w.owner_err →
      (sinsp_table_wrapper.erase_entry nt w key).1 = false) ∧
    ((sinsp_table_wrapper.create_table_entry nt w).2.owner_err ≠ w.owner_err →
      (sinsp_table_wrapper.create_table_entry nt w).1 = none) ∧
    (∀ key e,
      (sinsp_table_wrapper.add_entry nt w key e).2.owner_err ≠ w.owner_err →
      (sinsp_table_wrapper.add_entry nt w key e).1 = none) ∧
    (∀ e a din,
      (sinsp_table_wrapper.write_entry_field nt w e (.host a) din).2.owner_err ≠ w.owner_err →
      (sinsp_table_wrapper.write_entry_field nt w e (.host a) din).1 = false) ∧
    (∀ msg, nt.entries_count w.native = .error msg →
      sinsp_table_wrapper.get_size nt w = (u64max, { w with owner_err := msg })) ∧
    (∀ key msg, nt.get_entry (unionGet w.key_type key) w.native = .error msg →
      sinsp_table_wrapper.get_entry nt w key = (none, { w with owner_err := msg })) ∧
    (∀ e a msg,
      (if a.dynamic then nt.get_dynamic_field e a.accessor a.data_type w.native
       else nt.get_static_field e a.accessor a.data_type w.native) = .error msg →
      sinsp_table_wrapper.read_entry_field nt w e (.host a) =
        (none, { w with owner_err := msg })) ∧
    (∀ msg, nt.clear_entries w.native = .error msg →
      sinsp_table_wrapper.clear nt w = (false, { w with owner_err := msg })) ∧
    (∀ key msg, nt.erase_entry (unionGet w.key_type key) w.native = .error msg →
      sinsp_table_wrapper.erase_entry nt w key = (false, { w with owner_err := msg })) ∧
    (∀ msg, nt.new_entry w.native = .error msg →
      sinsp_table_wrapper.create_table_entry nt w = (none, { w with owner_err := msg })) ∧
    (∀ key e msg, nt.add_entry (unionGet w.key_type key) e w.native = .error msg →
      sinsp_table_wrapper.add_entry nt w key e = (none, { w with owner_err := msg })) ∧
    (∀ e a din msg,
      (if a.dynamic then
         nt.set_dynamic_field e a.accessor a.data_type (unionGet a.data_type din) w.native
       else
         nt.set_static_field e a.accessor a.data_type (unionGet a.data_type din) w.native)
        = .error msg →
      sinsp_table_wrapper.write_entry_field nt w e (.host a) din =
        (false, { w with owner_err := msg })) :=
  ⟨err_to_sentinel_list_fields nt w h,
   fun name dt => err_to_sentinel_get_field nt w name dt h,
   fun name dt => err_to_sentinel_add_field nt w name dt h,
   err_to_sentinel_get_name nt w h,
   err_to_sentinel_get_size nt w h,
   fun key => err_to_sentinel_get_entry nt w key h,
   fun e a => err_to_sentinel_read_entry_field nt w e a h,
   err_to_sentinel_clear nt w h,
   fun key => err_to_sentinel_erase_entry nt w key h,
   err_to_sentinel_create_table_entry nt w h,
   fun key e => err_to_sentinel_add_entry nt w key e h,
   fun e a din => err_to_sentinel_write_entry_field nt w e a din h,
   fun _ hc => exn_get_size nt w h hc,
   fun key _ hc => exn_get_entry nt w key h hc,
   fun e a _ hc => exn_read_entry_field nt w e a h hc,
   fun _ hc => exn_clear nt w h hc,
   fun key _ hc => exn_erase_entry nt w key h hc,
   fun _ hc => exn_create_table_entry nt w h hc,
   fun key e _ hc => exn_add_entry nt w key e h hc,
   fun e a din _ hc => exn_write_entry_field nt w e a din h hc⟩

/-- Closed instance of the amended C2 theorem at a concrete wrapper over
a native table whose `entries_count` raises: the exception's message
lands in the owner's last-error slot and the sentinel is returned. -/
theorem boundary_error_translation_amended_witness :
    exHostWrapper.plugin_input = none ∧
    exNTfail.entries_count exHostWrapper.native = .error "boom" ∧
    sinsp_table_wrapper.get_size exNTfail exHostWrapper =
      (u64max, { exHostWrapper with owner_err := "boom" }) := by
  have hmain := boundary_error_translation_amended exNTfail exHostWrapper rfl
  exact ⟨rfl, rfl, hmain.2.2.2.2.2.2.2.2.2.2.2.2.1 "boom" rfl⟩

/-!
## C3: write / add_entry / get_entry / read round-trip
-/

/-- C3: for every supported key type and field type (any `kt`, `T` with a
matching key `k` and value `v`), writing `v` into a field of a detached
entry `e` through `write_entry_field`, inserting it with
`add_entry(k, e)`, fetching it back with `get_entry(k)` and reading the
same field accessor yields exactly the value written before insertion. -/
theorem add_get_read_round_trip {σ : Type} (nm : String) (kt T : StateType)
    (statics : List (String × FieldInfo)) (w : sinsp_table_wrapper σ NativeState)
    (e idx : Nat) (ed : EntryData) (k v : Data)
    (hp : w.plugin_input = none) (hkey : k.tag = w.key_type) (hT : v.tag = T)
    (he : alookup e w.native.heap = some ed) :
    (sinsp_table_wrapper.write_entry_field (mkNativeTable nm kt statics) w e
        (.host ⟨true, T, idx⟩) v).1 = true ∧
    (sinsp_table_wrapper.add_entry (mkNativeTable nm kt statics)
        (sinsp_table_wrapper.write_entry_field (mkNativeTable nm kt statics) w e
          (.host ⟨true, T, idx⟩) v).2 k e).1 = some e ∧
    (sinsp_table_wrapper.get_entry (mkNativeTable nm kt statics)
        (sinsp_table_wrapper.add_entry (mkNativeTable nm kt statics)
          (sinsp_table_wrapper.write_entry_field (mkNativeTable nm kt statics) w e
            (.host ⟨true, T, idx⟩) v).2 k e).2 k).1 = some e ∧
    (sinsp_table_wrapper.read_entry_field (mkNativeTable nm kt statics)
        (sinsp_table_wrapper.get_entry (mkNativeTable nm kt statics)
          (sinsp_table_wrapper.add_entry (mkNativeTable nm kt statics)
            (sinsp_table_wrapper.write_entry_field (mkNativeTable nm kt statics) w e
              (.host ⟨true, T, idx⟩) v).2 k e).2 k).2 e
        (.host ⟨true, T, idx⟩)).1 = some v := by
  have hw1 : sinsp_table_wrapper.write_entry_field (mkNativeTable nm kt statics) w e
      (.host ⟨true, T, idx⟩) v =
      (true, { w with native := { w.native with
        heap := aupsert e { ed with dvals := aupsert idx v ed.dvals } w.native.heap } }) := by
    simp [sinsp_table_wrapper.write_entry_field, hp, FieldHandle.asHost, mkNativeTable,
      unionGet, hT, he]
  have hw2 : sinsp_table_wrapper.add_entry (mkNativeTable nm kt statics)
      ({ w with native := { w.native with
        heap := aupsert e { ed with dvals := aupsert idx v ed.dvals } w.native.heap } }) k e =
      (some e, { w with native := { w.native with
        heap := aupsert e { ed with dvals := aupsert idx v ed.dvals } w.native.heap,
        entries := aupsert k e w.native.entries } }) := by
    simp [sinsp_table_wrapper.add_entry, hp, mkNativeTable, unionGet, hkey]
  have hw3 : sinsp_table_wrapper.get_entry (mkNativeTable nm kt statics)
      ({ w with native := { w.native with
        heap := aupsert e { ed with dvals := aupsert idx v ed.dvals } w.native.heap,
        entries := aupsert k e w.native.entries } }) k =
      (some e, { w with native := { w.native with
        heap := aupsert e { ed with dvals := aupsert idx v ed.dvals } w.native.heap,
        entries := aupsert k e w.native.entries } }) := by
    simp [sinsp_table_wrapper.get_entry, hp, mkNativeTable, unionGet, hkey,
      alookup_aupsert_self]
  rw [hw1]
  simp only []
  rw [hw2]
  simp only []
  rw [hw3]
  simp only []
  refine ⟨trivial, trivial, trivial, ?_⟩
  simp [sinsp_table_wrapper.read_entry_field, hp, FieldHandle.asHost, mkNativeTable,
    alookup_aupsert_self, unionGet, hT]

/-- Closed instance of the C3 round-trip theorem: `count = 5` written
into detached entry `0`, inserted under key `42`, reads back `5`. -/
theorem add_get_read_round_trip_witness :
    (exHostWrapper.plugin_input = none ∧
     (Data.u64 42).tag = exHostWrapper.key_type ∧
     (Data.u64 5).tag = StateType.uint64 ∧
     alookup 0 exHostWrapper.native.heap = some ⟨[], []⟩) ∧
    (sinsp_table_wrapper.read_entry_field (mkNativeTable "t1" .uint64 [])
        (sinsp_table_wrapper.get_entry (mkNativeTable "t1" .uint64 [])
          (sinsp_table_wrapper.add_entry (mkNativeTable "t1" .uint64 [])
            (sinsp_table_wrapper.write_entry_field (mkNativeTable "t1" .uint64 [])
              exHostWrapper 0 (.host ⟨true, .uint64, 0⟩) (Data.u64 5)).2
            (Data.u64 42) 0).2 (Data.u64 42)).2 0
        (.host ⟨true, .uint64, 0⟩)).1 = some (Data.u64 5) :=
  ⟨⟨rfl, rfl, rfl, by decide⟩,
   (add_get_read_round_trip "t1" .uint64 .uint64 [] exHostWrapper 0 0 ⟨[], []⟩
     (Data.u64 42) (Data.u64 5) rfl rfl rfl (by decide)).2.2.2⟩

/-!
## C4 / C5: the foreign field cache
-/

/-- A successful `fields()` call never drops or reassigns a raw accessor
handle already cached at an index. -/
theorem fields_preserves_accessor {σ : Type} {i : TableInput σ}
    {p p2 : plugin_field_infos} {s s2 : σ}
    (h : plugin_field_infos.fields i p s = .ok (p2, s2))
    {idx hd : Nat} (ha : lgetD p.m_accessors idx = some hd) :
    lgetD p2.m_accessors idx = some hd := by
  unfold plugin_field_infos.fields at h
  rcases hl : i.fields.list_table_fields s with ⟨r, s1⟩
  rw [hl] at h
  cases r with
  | none => exact absurd h (by simp)
  | some l =>
    simp only [] at h
    cases hi : (if l.length ≠ p.cached.length then import_fields l 0 p.cached
                else .ok p.cached) with
    | error e => rw [hi] at h; exact absurd h (by simp)
    | ok cached2 =>
      rw [hi] at h
      simp only [] at h
      cases hacq : acquire_accessors i cached2 p.m_accessors s1 with
      | error e => rw [hacq] at h; exact absurd h (by simp)
      | ok r2 =>
        rcases r2 with ⟨accs2, s3⟩
        rw [hacq] at h
        simp at h
        rw [← h.1]
        exact acquire_accessors_preserve hacq ha

/-- A successful `fields()` call never rebinds a name already present in
the local descriptor cache: its descriptor, index included, survives
every refresh. -/
theorem fields_preserves_cached {σ : Type} {i : TableInput σ}
    {p p2 : plugin_field_infos} {s s2 : σ}
    (h : plugin_field_infos.fields i p s = .ok (p2, s2))
    {a : String} {fia : FieldInfo} (ha : alookup a p.cached = some fia) :
    alookup a p2.cached = some fia := by
  unfold plugin_field_infos.fields at h
  rcases hl : i.fields.list_table_fields s with ⟨r, s1⟩
  rw [hl] at h
  cases r with
  | none => exact absurd h (by simp)
  | some l =>
    simp only [] at h
    cases hi : (if l.length ≠ p.cached.length then import_fields l 0 p.cached
                else .ok p.cached) with
    | error e => rw [hi] at h; exact absurd h (by simp)
    | ok cached2 =>
      rw [hi] at h
      simp only [] at h
      cases hacq : acquire_accessors i cached2 p.m_accessors s1 with
      | error e => rw [hacq] at h; exact absurd h (by simp)
      | ok r2 =>
        rcases r2 with ⟨accs2, s3⟩
        rw [hacq] at h
        simp at h
        rw [← h.1]
        by_cases hlen : l.length ≠ p.cached.length
        · rw [if_pos hlen] at hi
          exact import_fields_preserve hi ha
        · rw [if_neg hlen] at hi
          cases hi
          exact ha

/-- When the foreign-reported count equals the cached count and every
cached field already has its raw accessor, `fields()` leaves the cache
untouched and the only foreign call made is the single
`list_table_fields` query. -/
theorem fields_counts_equal_noop (nm : String) (kt : StateType)
    (p : plugin_field_infos) (s : ForeignTable)
    (hlen : s.ffields.length = p.cached.length)
    (hpres : ∀ f ∈ p.cached, (lgetD p.m_accessors f.2.index).isSome) :
    plugin_field_infos.fields (mkForeignInput nm kt) p s =
      .ok (p, { s with flog := s.flog ++ [FCall.listFields] }) := by
  unfold plugin_field_infos.fields
  have hl : (mkForeignInput nm kt).fields.list_table_fields s =
      (some s.ffields, { s with flog := s.flog ++ [FCall.listFields] }) := rfl
  rw [hl]
  simp only [hlen, ne_eq, not_true_eq_false, if_false]
  rw [acquire_accessors_all_present hpres]

/-- C4 counterexample: with the cached count equal to the
foreign-reported count (so no refresh is needed), `fields()` still
queries the full descriptor set from the foreign side — the
`list_table_fields` call, which returns all descriptors, is made on
every invocation, refuting "re-queries ... only when the counts
differ". -/
theorem lazy_refresh_counterexample :
    plugin_field_infos.fields exForeignInput exPFI exForeignState =
      .ok (exPFI, { exForeignState with
        flog := exForeignState.flog ++ [FCall.listFields] }) ∧
    ({ exForeignState with flog := exForeignState.flog ++ [FCall.listFields] }).flog
      ≠ exForeignState.flog := by
  exact ⟨rfl, by decide⟩

/-- C4 (amended): every `fields()` call performs one foreign
`list_table_fields` query (which returns the full descriptor set); the
local cache is re-imported from the result only when the reported count
differs from the cached count — when the counts are equal and all
accessors are present, the cache and accessor vector are returned
untouched and no other foreign call is made; and a raw accessor handle
obtained for a field index is never reacquired: the cached handle at
that index survives every later call unchanged. -/
theorem lazy_refresh_amended :
    (∀ (σ : Type) (i : TableInput σ) (p p2 : plugin_field_infos) (s s2 : σ)
       (idx hd : Nat),
       plugin_field_infos.fields i p s = .ok (p2, s2) →
       lgetD p.m_accessors idx = some hd →
       lgetD p2.m_accessors idx = some hd) ∧
    (∀ (nm : String) (kt : StateType) (p : plugin_field_infos) (s : ForeignTable),
       s.ffields.length = p.cached.length →
       (∀ f ∈ p.cached, (lgetD p.m_accessors f.2.index).isSome) →
       plugin_field_infos.fields (mkForeignInput nm kt) p s =
         .ok (p, { s with flog := s.flog ++ [FCall.listFields] })) :=
  ⟨fun _ _ _ _ _ _ _ _ h ha => fields_preserves_accessor h ha,
   fun nm kt p s hlen hpres => fields_counts_equal_noop nm kt p s hlen hpres⟩

/-- Closed instance of the amended C4 theorem at the concrete consistent
cache. -/
theorem lazy_refresh_amended_witness :
    (exForeignState.ffields.length = exPFI.cached.length ∧
     (∀ f ∈ exPFI.cached, (lgetD exPFI.m_accessors f.2.index).isSome)) ∧
    plugin_field_infos.fields (mkForeignInput "T" StateType.uint64) exPFI exForeignState =
      .ok (exPFI, { exForeignState with
        flog := exForeignState.flog ++ [FCall.listFields] }) :=
  ⟨⟨rfl, by decide⟩,
   lazy_refresh_amended.2 "T" StateType.uint64 exPFI exForeignState rfl (by decide)⟩

/-- `plugin_field_infos::add_field` never rebinds a name already present
in the local descriptor cache. -/
theorem plugin_add_field_preserves {σ : Type} {i : TableInput σ}
    {p : plugin_field_infos} {s : σ} {name : String} {f fi2 : FieldInfo}
    {p2 : plugin_field_infos} {s2 : σ}
    (h : plugin_field_infos.add_field i p s name f = .ok (fi2, p2, s2))
    {a : String} {fia : FieldInfo} (ha : alookup a p.cached = some fia) :
    alookup a p2.cached = some fia := by
  unfold plugin_field_infos.add_field at h
  rcases hc : i.fields.add_table_field name f.type s with ⟨r, s1⟩
  rw [hc] at h
  cases r with
  | none => exact absurd h (by simp)
  | some hnew =>
    simp only [] at h
    cases hf : plugin_field_infos.fields i p s1 with
    | error e => rw [hf] at h; exact absurd h (by simp)
    | ok r2 =>
      rcases r2 with ⟨p3, s3⟩
      rw [hf] at h
      simp only [] at h
      cases hb : base_add_field name f p3.cached with
      | error e => rw [hb] at h; exact absurd h (by simp)
      | ok r3 =>
        rcases r3 with ⟨fi3, m3⟩
        rw [hb] at h
        simp at h
        rw [← h.2.1]
        exact base_add_field_preserve hb (fields_preserves_cached hf ha)

/-- C5: a field descriptor's binding in the foreign-owned table's local
cache — its index included — is never compacted, reused, or reassigned
by a later schema operation: both `add_field` (adding a new dynamic
field "b") and every `fields()` refresh leave the descriptor cached for
an existing field "a" exactly as it was, so an accessor for "a"
re-obtained after adding "b" reports the same index as before. -/
theorem accessor_index_stability :
    (∀ (σ : Type) (i : TableInput σ) (p : plugin_field_infos) (s : σ)
       (name : String) (f fi2 : FieldInfo) (p2 : plugin_field_infos) (s2 : σ)
       (a : String) (fia : FieldInfo),
       plugin_field_infos.add_field i p s name f = .ok (fi2, p2, s2) →
       alookup a p.cached = some fia → alookup a p2.cached = some fia) ∧
    (∀ (σ : Type) (i : TableInput σ) (p p2 : plugin_field_infos) (s s2 : σ)
       (a : String) (fia : FieldInfo),
       plugin_field_infos.fields i p s = .ok (p2, s2) →
       alookup a p.cached = some fia → alookup a p2.cached = some fia) :=
  ⟨fun _ _ _ _ _ _ _ _ _ _ _ h ha => plugin_add_field_preserves h ha,
   fun _ _ _ _ _ _ _ _ h ha => fields_preserves_cached h ha⟩

/-- Closed instance of the C5 theorem: field `a` sits at index `0`;
dynamic field `b` is added; `a` is still bound to index `0`. -/
theorem accessor_index_stability_witness :
    (plugin_field_infos.add_field exForeignInput exPFI exForeignState "b"
        ⟨1, .boolean, false⟩ =
      .ok (⟨1, .boolean, false⟩,
        ⟨[("a", ⟨0, .uint64, false⟩), ("b", ⟨1, .boolean, false⟩)], [some 0, some 1]⟩,
        ⟨"T", .uint64, [⟨"a", .uint64, false⟩, ⟨"b", .boolean, false⟩], [(0, [])], [], 1,
          [FCall.addField "b", FCall.listFields, FCall.getField "b"], ""⟩) ∧
     alookup "a" exPFI.cached = some ⟨0, .uint64, false⟩) ∧
    alookup "a" ([("a", ⟨0, .uint64, false⟩), ("b", ⟨1, .boolean, false⟩)] :
        List (String × FieldInfo)) =
      some (⟨0, .uint64, false⟩ : FieldInfo) :=
  ⟨⟨rfl, by decide⟩,
   accessor_index_stability.1 ForeignTable exForeignInput exPFI exForeignState "b"
     (⟨1, .boolean, false⟩ : FieldInfo) (⟨1, .boolean, false⟩ : FieldInfo)
     (⟨[("a", ⟨0, .uint64, false⟩), ("b", ⟨1, .boolean, false⟩)], [some 0, some 1]⟩ :
       plugin_field_infos)
     (⟨"T", .uint64, [⟨"a", .uint64, false⟩, ⟨"b", .boolean, false⟩], [(0, [])], [], 1,
       [FCall.addField "b", FCall.listFields, FCall.getField "b"], ""⟩ : ForeignTable)
     "a" (⟨0, .uint64, false⟩ : FieldInfo) rfl (by decide)⟩

/-!
## C6: type-mismatched accessor requests
-/

/-- C6 counterexample: `get_field` returns a cached accessor by name
before any type validation, so requesting field `f` (declared `uint64`,
its accessor already cached) with data type `int8` succeeds and returns
the cached `uint64` accessor instead of failing, refuting the claim that
a type-mismatched request always returns `NULL`. -/
theorem get_field_type_mismatch_counterexample :
    alookup "f" (exNT.dyn_fields exHostWrapperCached.native) =
      some (⟨0, .uint64, false⟩ : FieldInfo) ∧
    StateType.int8 ≠ StateType.uint64 ∧
    sinsp_table_wrapper.get_field exNT exHostWrapperCached "f" .int8 =
      (some (.host ⟨true, .uint64, 0⟩), exHostWrapperCached) :=
  ⟨by decide, by decide, rfl⟩

/-- C6 (amended): requesting an existing field's accessor with a data
type different from the field's declared type fails — `NULL` result with
an error message stored — and leaves the schema (static descriptors,
dynamic descriptors in the native state) and the accessor cache
unchanged, provided no accessor for that field is already cached; when
one is cached, `get_field` returns it unchanged without re-validating
the requested type. -/
theorem get_field_type_mismatch_amended {σ τ : Type} (nt : NativeTable τ)
    (w : sinsp_table_wrapper σ τ) (name : String) (dt : StateType)
    (h : w.plugin_input = none) :
    (∀ fi : FieldInfo,
      alookup name w.field_accessors = none →
      alookup name nt.static_fields = some fi →
      alookup name (nt.dyn_fields w.native) = none →
      dt ≠ fi.type →
      sinsp_table_wrapper.get_field nt w name dt =
        (none, { w with owner_err :=
          "undefined field \x27" ++ name ++ "\x27 in table \x27" ++ nt.name ++ "\x27" })) ∧
    (∀ fi : FieldInfo,
      alookup name w.field_accessors = none →
      alookup name nt.static_fields = none →
      alookup name (nt.dyn_fields w.native) = some fi →
      dt ≠ fi.type →
      sinsp_table_wrapper.get_field nt w name dt =
        (none, { w with owner_err := "incompatible data types for field: " ++ name })) ∧
    (∀ acc : field_accessor_wrapper,
      alookup name w.field_accessors = some acc →
      sinsp_table_wrapper.get_field nt w name dt = (some (.host acc), w)) := by
  refine ⟨?_, ?_, ?_⟩
  · intro fi hcache hfix hdyn ht
    simp [sinsp_table_wrapper.get_field, sinsp_table_wrapper.get_field_dyn,
      h, hcache, hfix, hdyn, ht]
  · intro fi hcache hfix hdyn ht
    simp [sinsp_table_wrapper.get_field, sinsp_table_wrapper.get_field_dyn,
      h, hcache, hfix, hdyn, Ne.symm ht, ht]
  · intro acc hacc
    simp [sinsp_table_wrapper.get_field, h, hacc]

/-- Closed instance of the amended C6 theorem: requesting dynamic field
`f : uint64` as `int8` with no cached accessor fails and mutates
nothing but the error slot. -/
theorem get_field_type_mismatch_amended_witness :
    (exHostWrapper.plugin_input = none ∧
     alookup "f" exHostWrapper.field_accessors = none ∧
     alookup "f" exNT.static_fields = none ∧
     alookup "f" (exNT.dyn_fields exHostWrapper.native) =
       some (⟨0, .uint64, false⟩ : FieldInfo) ∧
     StateType.int8 ≠ (⟨0, .uint64, false⟩ : FieldInfo).type) ∧
    sinsp_table_wrapper.get_field exNT exHostWrapper "f" .int8 =
      (none, { exHostWrapper with
        owner_err := "incompatible data types for field: f" }) :=
  ⟨⟨rfl, rfl, rfl, by decide, by decide⟩,
   (get_field_type_mismatch_amended exNT exHostWrapper "f" .int8 rfl).2.1
     ⟨0, .uint64, false⟩ rfl rfl (by decide) (by decide)⟩

/-!
## C7: erasing an absent key
-/

/-- C7: erasing a key that is not present returns the failure value and
leaves the table's observable state unchanged, on both sides.  Through
the Host-Owned Table Adapter over the modelled native table, the call
returns `SS_PLUGIN_FAILURE` and only the owner's error slot changes (the
native state is untouched, so `entries_count` is unchanged and every
other entry is still retrievable with its prior field values); through
the Plugin-Owned Table Adapter over the modelled plugin table, the call
returns `false` and only the foreign call log and last-error slot
change. -/
theorem erase_nonexistent_noop :
    (∀ (σ : Type) (nm : String) (kt : StateType)
       (statics : List (String × FieldInfo))
       (w : sinsp_table_wrapper σ NativeState) (k : Data),
       w.plugin_input = none →
       alookup (unionGet w.key_type k) w.native.entries = none →
       sinsp_table_wrapper.erase_entry (mkNativeTable nm kt statics) w k =
         (false, { w with owner_err := "table entry not found" }) ∧
       (∀ k2, (sinsp_table_wrapper.get_entry (mkNativeTable nm kt statics)
            { w with owner_err := "table entry not found" } k2).1 =
          (sinsp_table_wrapper.get_entry (mkNativeTable nm kt statics) w k2).1) ∧
       (sinsp_table_wrapper.get_size (mkNativeTable nm kt statics)
          { w with owner_err := "table entry not found" }).1 =
         (sinsp_table_wrapper.get_size (mkNativeTable nm kt statics) w).1) ∧
    (∀ (nm : String) (kt : StateType) (dynp : plugin_field_infos) (k : Data)
       (s : ForeignTable),
       alookup k s.fentries = none →
       plugin_table_wrapper.erase_entry ⟨mkForeignInput nm kt, dynp⟩ k s =
         (false,
           { s with
               flog := s.flog ++ [FCall.eraseEntry k]
               flast_err := "table entry not found" })) := by
  constructor
  · intro σ nm kt statics w k hp hk
    refine ⟨?_, ?_, ?_⟩
    · simp [sinsp_table_wrapper.erase_entry, hp, mkNativeTable, hk]
    · intro k2
      simp [sinsp_table_wrapper.get_entry, hp, mkNativeTable]
    · simp [sinsp_table_wrapper.get_size, hp, mkNativeTable]
  · intro nm kt dynp k s hk
    simp [plugin_table_wrapper.erase_entry, mkForeignInput, foreignWriterVTable, hk]

/-- Closed instance of the C7 theorem: erasing key `42` from the empty
concrete tables fails and changes nothing on either side. -/
theorem erase_nonexistent_noop_witness :
    (exHostWrapper.plugin_input = none ∧
     alookup (unionGet exHostWrapper.key_type (Data.u64 42))
       exHostWrapper.native.entries = none ∧
     alookup (Data.u64 42) exForeignState.fentries = none) ∧
    sinsp_table_wrapper.erase_entry (mkNativeTable "t1" .uint64 [])
        exHostWrapper (Data.u64 42) =
      (false, { exHostWrapper with owner_err := "table entry not found" }) ∧
    plugin_table_wrapper.erase_entry ⟨mkForeignInput "T" .uint64, exPFI⟩
        (Data.u64 42) exForeignState =
      (false, { exForeignState with
        flog := exForeignState.flog ++ [FCall.eraseEntry (Data.u64 42)],
        flast_err := "table entry not found" }) :=
  ⟨⟨rfl, by decide, by decide⟩,
   (erase_nonexistent_noop.1 ForeignTable "t1" .uint64 [] exHostWrapper
     (Data.u64 42) rfl (by decide)).1,
   erase_nonexistent_noop.2 "T" .uint64 exPFI (Data.u64 42) exForeignState
     (by decide)⟩

/-!
## C8: registry `get_table` failures
-/

/-- C8 counterexample: table `T` is registered with key type `uint64`;
after a first successful `get_table(T, uint64)` caches the handle, a
repeated call `get_table(T, int8)` — a key-type mismatch — returns the
cached handle (non-null) instead of failing, refuting the claim that the
mismatch fails on every call including repeated ones. -/
theorem get_table_key_mismatch_counterexample :
    (mkNativeTable "T" StateType.uint64 []).key_info ≠ StateType.int8 ∧
    (table_api_get_table exPluginState "T" .uint64 exForeignState exNativeState).1.isSome
      = true ∧
    (table_api_get_table
        (table_api_get_table exPluginState "T" .uint64 exForeignState exNativeState).2
        "T" .int8 exForeignState exNativeState).1.isSome = true :=
  ⟨by decide, rfl, rfl⟩

/-- C8 (amended): on a first request for a name (no cached handle), an
unknown name returns null — without storing a message — and a key-type
mismatch returns null with the failure message stored in the owner's
slot; but once a handle for a name has been cached by a previous
successful request, every later call returns the cached handle without
re-validating the requested key type. -/
theorem get_table_failure_amended {σ τ : Type} (p : PluginState σ τ)
    (name : String) (kt : StateType) (s : σ) (st : τ) :
    (alookup name p.accessed = none → alookup name p.registry = none →
      table_api_get_table p name kt s st = (none, p)) ∧
    (∀ t : RegTable σ τ,
      alookup name p.accessed = none → alookup name p.registry = some t →
      t.keyType ≠ kt →
      table_api_get_table p name kt s st =
        (none, { p with last_owner_err :=
          "table \x27" ++ name ++ "\x27 requested with incompatible key type" })) ∧
    (∀ w : sinsp_table_wrapper σ τ,
      alookup name p.accessed = some w →
      table_api_get_table p name kt s st = (some w, p)) := by
  refine ⟨?_, ?_, ?_⟩
  · intro hmiss hreg
    simp [table_api_get_table, registry_get_table, hmiss, hreg]
  · intro t hmiss hreg ht
    simp [table_api_get_table, registry_get_table, hmiss, hreg, ht]
  · intro w hacc
    simp [table_api_get_table, hacc]

/-- Closed instance of the amended C8 theorem: a first-call key-type
mismatch on `T` returns null with the message stored. -/
theorem get_table_failure_amended_witness :
    (alookup "T" exPluginState.accessed = none ∧
     alookup "T" exPluginState.registry =
       some (RegTable.native (mkNativeTable "T" .uint64 [])) ∧
     (RegTable.native (mkNativeTable "T" .uint64 []) :
        RegTable ForeignTable NativeState).keyType ≠ StateType.int8) ∧
    table_api_get_table exPluginState "T" .int8 exForeignState exNativeState =
      (none, { exPluginState with last_owner_err :=
        "table \x27T\x27 requested with incompatible key type" }) :=
  ⟨⟨rfl, rfl, by decide⟩,
   (get_table_failure_amended exPluginState "T" .int8 exForeignState
      exNativeState).2.1 (RegTable.native (mkNativeTable "T" .uint64 []))
     rfl rfl (by decide)⟩

end PluginTableApi
